import Mathlib

/-!
Verification development for the prometheus metric-scheduling core of the
trustyai-service python repository.

The definitions below are a shallow embedding of the python sources:

* `src/service/prometheus/metric_value_carrier.py`  → `MetricValueCarrier`
* `src/service/prometheus/prometheus_publisher.py`  → `PrometheusPublisher`
* `src/service/prometheus/prometheus_scheduler.py`  → `PrometheusScheduler`
* `src/service/payloads/metrics/request_reconciler.py` → `RequestReconciler`
* `src/service/data/metadata/storage_metadata.py`   → `StorageMetadata`

Modelling conventions:

* python `dict` objects become insertion-ordered association lists
  (`alistGet` / `alistSet` / `alistErase` reproduce `d[k]`, `d[k] = v`,
  `del d[k]` and `d.update(...)` semantics);
* python exceptions become an explicit `PyErr` value; functions that can
  raise return the mutated-so-far state together with an `Option PyErr`
  (python mutations performed before an exception persist);
* `uuid.UUID` values are represented by their canonical string form;
  `uuid.uuid5` is implemented concretely (SHA-1 over namespace bytes and
  the utf-8 encoded name, with the version/variant bits set);
* floating point metric values are represented by `Rat`; the core never
  performs arithmetic on metric values, it only stores and forwards them;
* pandas dataframes are represented by their list of rows (`List Nat`);
  only `df.shape[0]` and `df.tail(n)` are used by the embedded code;
* logging and data-flow milestones are recorded in an explicit `Event`
  trace so that temporal claims can be stated.
-/

/-- Python exceptions relevant to the embedded code. -/
inductive PyErr where
  | unboundLocalErr
  | keyErr (k : String)
  | valueErr (msg : String)
  | exn (msg : String)
  deriving Repr, DecidableEq

deriving instance DecidableEq for Except

/-- Lookup in an insertion-ordered association list: python `d.get(k)`. -/
def alistGet {α β : Type} [DecidableEq α] : List (α × β) → α → Option β
  | [], _ => none
  | (k, v) :: rest, key => if k = key then some v else alistGet rest key

/-- Insertion/update: python `d[k] = v` (updates in place, else appends). -/
def alistSet {α β : Type} [DecidableEq α] : List (α × β) → α → β → List (α × β)
  | [], key, val => [(key, val)]
  | (k, v) :: rest, key, val =>
      if k = key then (k, val) :: rest else (k, v) :: alistSet rest key val

/-- Removal: python `del d[k]` guarded by `if k in d` (no-op when absent). -/
def alistErase {α β : Type} [DecidableEq α] : List (α × β) → α → List (α × β)
  | [], _ => []
  | (k, v) :: rest, key => if k = key then rest else (k, v) :: alistErase rest key

/-- Bulk update: python `d.update(other)`. -/
def alistUpdateAll {α β : Type} [DecidableEq α]
    (d other : List (α × β)) : List (α × β) :=
  other.foldl (fun acc kv => alistSet acc kv.1 kv.2) d

theorem alistGet_set_eq {α β : Type} [DecidableEq α]
    (l : List (α × β)) (k : α) (v : β) : alistGet (alistSet l k v) k = some v := by
  induction l with
  | nil => simp [alistGet, alistSet]
  | cons hd tl ih =>
      by_cases h : hd.1 = k
      · simp [alistSet, alistGet, h]
      · simp [alistSet, alistGet, h, ih]

theorem alistGet_set_ne {α β : Type} [DecidableEq α]
    (l : List (α × β)) (k k2 : α) (v : β) (h : k2 ≠ k) :
    alistGet (alistSet l k v) k2 = alistGet l k2 := by
  have h2 : k ≠ k2 := Ne.symm h
  induction l with
  | nil => simp [alistGet, alistSet, h2]
  | cons hd tl ih =>
      obtain ⟨ka, va⟩ := hd
      by_cases hk : ka = k
      · subst hk
        simp [alistSet, alistGet, h2]
      · by_cases hk2 : ka = k2
        · subst hk2
          simp [alistSet, alistGet, hk]
        · simp [alistSet, alistGet, hk, hk2, ih]

/-! ## UTF-8 encoding, SHA-1 and uuid5 (python `uuid.uuid5`) -/

/-- UTF-8 encoding of one unicode code point, as byte values. -/
def utf8Char (n : Nat) : List Nat :=
  if n < 128 then [n]
  else if n < 2048 then [192 + n / 64, 128 + n % 64]
  else if n < 65536 then [224 + n / 4096, 128 + (n / 64) % 64, 128 + n % 64]
  else [240 + n / 262144, 128 + (n / 4096) % 64, 128 + (n / 64) % 64, 128 + n % 64]

/-- UTF-8 encoding of a string: python `s.encode("utf-8")`. -/
def utf8 (s : String) : List Nat :=
  s.data.foldr (fun c acc => utf8Char c.toNat ++ acc) []

def pow32 : Nat := 4294967296

/-- Left rotation of a 32-bit word. -/
def rotl (n x : Nat) : Nat :=
  Nat.lor ((x <<< n) % pow32) (x >>> (32 - n))

def sha1K (i : Nat) : Nat :=
  if i < 20 then 1518500249
  else if i < 40 then 1859775393
  else if i < 60 then 2400959708
  else 3395469782

def sha1F (i b c d : Nat) : Nat :=
  if i < 20 then Nat.lor (Nat.land b c) (Nat.land (4294967295 - b % pow32) d)
  else if i < 40 then Nat.xor b (Nat.xor c d)
  else if i < 60 then Nat.lor (Nat.lor (Nat.land b c) (Nat.land b d)) (Nat.land c d)
  else Nat.xor b (Nat.xor c d)

/-- Big-endian 8-byte encoding of the bit length. -/
def bytesBE8 (n : Nat) : List Nat :=
  [n >>> 56 % 256, n >>> 48 % 256, n >>> 40 % 256, n >>> 32 % 256,
   n >>> 24 % 256, n >>> 16 % 256, n >>> 8 % 256, n % 256]

/-- SHA-1 message padding. -/
def sha1Pad (msg : List Nat) : List Nat :=
  let len := msg.length
  let z := (120 - ((len + 1) % 64)) % 64
  msg ++ [128] ++ List.replicate z 0 ++ bytesBE8 (len * 8)

/-- Big-endian 32-bit words from bytes. -/
def wordsOfBytes : List Nat → List Nat
  | b0 :: b1 :: b2 :: b3 :: rest =>
      (b0 * 16777216 + b1 * 65536 + b2 * 256 + b3) :: wordsOfBytes rest
  | _ => []

/-- Extend a 16-word schedule by `k` additional words. -/
def sha1Extend : List Nat → Nat → List Nat
  | ws, 0 => ws
  | ws, k + 1 =>
      let n := ws.length
      let w := rotl 1 (Nat.xor (ws.getD (n - 3) 0)
        (Nat.xor (ws.getD (n - 8) 0) (Nat.xor (ws.getD (n - 14) 0) (ws.getD (n - 16) 0))))
      sha1Extend (ws ++ [w]) k

def sha1Step (w : List Nat) (st : Nat × Nat × Nat × Nat × Nat) (i : Nat) :
    Nat × Nat × Nat × Nat × Nat :=
  let a := st.1
  let b := st.2.1
  let c := st.2.2.1
  let d := st.2.2.2.1
  let e := st.2.2.2.2
  let tmp := (rotl 5 a + sha1F i b c d + e + sha1K i + w.getD i 0) % pow32
  (tmp, a, rotl 30 b, c, d)

def sha1Block (h : Nat × Nat × Nat × Nat × Nat) (block : List Nat) :
    Nat × Nat × Nat × Nat × Nat :=
  let ws := sha1Extend (wordsOfBytes block) 64
  let st := (List.range 80).foldl (sha1Step ws) h
  ((h.1 + st.1) % pow32, (h.2.1 + st.2.1) % pow32, (h.2.2.1 + st.2.2.1) % pow32,
   (h.2.2.2.1 + st.2.2.2.1) % pow32, (h.2.2.2.2 + st.2.2.2.2) % pow32)

/-- Split a byte list into 64-byte blocks (fuel keeps the recursion
structural so that the kernel can evaluate it). -/
def chunks64F : Nat → List Nat → List (List Nat)
  | 0, _ => []
  | _, [] => []
  | fuel + 1, l => l.take 64 :: chunks64F fuel (l.drop 64)

def chunks64 (l : List Nat) : List (List Nat) :=
  chunks64F l.length l

/-- Big-endian bytes of one 32-bit word. -/
def bytesOfWord (w : Nat) : List Nat :=
  [w >>> 24 % 256, w >>> 16 % 256, w >>> 8 % 256, w % 256]

/-- SHA-1 digest (20 bytes) of a byte string. -/
def sha1 (msg : List Nat) : List Nat :=
  let blocks := chunks64 (sha1Pad msg)
  let h := blocks.foldl sha1Block
    (1732584193, 4023233417, 2562383102, 271733878, 3285377520)
  bytesOfWord h.1 ++ bytesOfWord h.2.1 ++ bytesOfWord h.2.2.1 ++
    bytesOfWord h.2.2.2.1 ++ bytesOfWord h.2.2.2.2

/-- The bytes of `uuid.NAMESPACE_DNS` (6ba7b810-9dad-11d1-80b4-00c04fd430c8). -/
def namespaceDNSBytes : List Nat :=
  [107, 167, 184, 16, 157, 173, 17, 209, 128, 180, 0, 192, 79, 212, 48, 200]

/-- First 16 bytes of the SHA-1 digest with the RFC 4122 version (5) and
variant bits set, as python `uuid.uuid5` computes them. -/
def uuid5Bytes (nameBytes : List Nat) : List Nat :=
  let d := (sha1 (namespaceDNSBytes ++ nameBytes)).take 16
  let d := d.set 6 (d.getD 6 0 % 16 + 80)
  d.set 8 (d.getD 8 0 % 64 + 128)

def hexDigit (n : Nat) : Char :=
  if n = 0 then Char.ofNat 48 else if n = 1 then Char.ofNat 49
  else if n = 2 then Char.ofNat 50 else if n = 3 then Char.ofNat 51
  else if n = 4 then Char.ofNat 52 else if n = 5 then Char.ofNat 53
  else if n = 6 then Char.ofNat 54 else if n = 7 then Char.ofNat 55
  else if n = 8 then Char.ofNat 56 else if n = 9 then Char.ofNat 57
  else if n = 10 then Char.ofNat 97 else if n = 11 then Char.ofNat 98
  else if n = 12 then Char.ofNat 99 else if n = 13 then Char.ofNat 100
  else if n = 14 then Char.ofNat 101 else Char.ofNat 102

def byteHex (b : Nat) : String :=
  String.mk [hexDigit (b / 16), hexDigit (b % 16)]

def hexJoin (bs : List Nat) : String :=
  String.join (bs.map byteHex)

/-- Canonical string rendering of 16 UUID bytes (`str(uuid_value)`). -/
def uuidStrOfBytes (bs : List Nat) : String :=
  hexJoin (bs.take 4) ++ "-" ++ hexJoin ((bs.drop 4).take 2) ++ "-" ++
    hexJoin ((bs.drop 6).take 2) ++ "-" ++ hexJoin ((bs.drop 8).take 2) ++ "-" ++
    hexJoin (bs.drop 10)

/-- Python `str(uuid.uuid5(uuid.NAMESPACE_DNS, name))` with a utf-8 name. -/
def uuid5dns (name : String) : String :=
  uuidStrOfBytes (uuid5Bytes (utf8 name))

/-! ## MetricValueCarrier (src/service/prometheus/metric_value_carrier.py) -/

/-- The constructor argument `value_or_named_values : Union[float, Dict[str, float]]`. -/
inductive ValueOrNamedValues where
  | scalar (v : Rat)
  | named (m : List (String × Rat))
  deriving Repr, DecidableEq

structure MetricValueCarrier where
  value : Option Rat
  named_values : Option (List (String × Rat))
  single : Bool
  deriving Repr, DecidableEq

/-- `MetricValueCarrier.__init__`: selects the variant from the input shape. -/
def MetricValueCarrier.init : ValueOrNamedValues → MetricValueCarrier
  | ValueOrNamedValues.scalar v => ⟨some v, none, true⟩
  | ValueOrNamedValues.named m => ⟨none, some m, false⟩

def MetricValueCarrier.is_single (c : MetricValueCarrier) : Bool := c.single

def notSingularMsg : String :=
  "Metric value is not singular and therefore must be accessed via .get_named_values()"

def singularMsg : String :=
  "Metric value is singular and therefore must be accessed via .get_value()"

/-- `get_value`: returns `self.value` when single, else raises. -/
def MetricValueCarrier.get_value (c : MetricValueCarrier) : Except PyErr (Option Rat) :=
  if c.single then Except.ok c.value else Except.error (PyErr.valueErr notSingularMsg)

/-- `get_named_values`: returns `self.named_values` when not single, else raises. -/
def MetricValueCarrier.get_named_values (c : MetricValueCarrier) :
    Except PyErr (Option (List (String × Rat))) :=
  if !c.single then Except.ok c.named_values else Except.error (PyErr.valueErr singularMsg)

/-! ## StorageMetadata and metric requests -/

/-- `src/service/data/metadata/storage_metadata.py`: plain record of model
storage metadata (schemas represented as association lists). -/
structure StorageMetadata where
  model_id : String
  observations : Nat
  recorded_inferences : Bool
  input_schema : List (String × String)
  output_schema : List (String × String)
  joint_name_aliases : List (String × String)
  input_tensor_name : String
  output_tensor_name : String

/-- Modelled from the spec: the class `BaseMetricRequest`
(`src/service/payloads/metrics/base_metric_request.py`) is not among the
sources; spec section 3 describes a metric request as a record with a model
id, a metric name, a positive batch size, methods producing default and
request-specific label tags, and reconcilable fields resolved against model
metadata.  The reconcilable fields are modelled as the effects their
`reconcile(storage_metadata)` methods have. -/
structure BaseMetricRequest where
  model_id : String
  metric_name : String
  batch_size : Nat
  retrieve_default_tags : List (String × String)
  retrieve_tags : List (String × String)
  reconcilables : List (StorageMetadata → Except PyErr Unit)

/-! ## Structural string helpers

`String.toLower`, `String.endsWith` and `String.trim` from the Lean library
are implemented with iterator loops that the kernel cannot evaluate; the
embedding uses the following structurally recursive equivalents (python
`str.lower()` on ASCII, `str.endswith` and the whitespace stripping done by
`int()`). -/

def lowerChar (c : Char) : Char :=
  if 65 <= c.toNat && c.toNat <= 90 then Char.ofNat (c.toNat + 32) else c

/-- python `s.lower()` (ASCII range; every name in the service is ASCII). -/
def pyLower (s : String) : String :=
  String.mk (s.data.map lowerChar)

/-- python `s.endswith(suffix)`. -/
def strEndsWith (s suffix : String) : Bool :=
  suffix.data.reverse.isPrefixOf s.data.reverse

def isPySpace (c : Char) : Bool :=
  c.toNat = 32 || c.toNat = 9 || c.toNat = 10 || c.toNat = 13 || c.toNat = 11 || c.toNat = 12

/-- The whitespace stripping python `int(s)` performs. -/
def pyStrip (s : String) : String :=
  String.mk (((s.data.dropWhile isPySpace).reverse.dropWhile isPySpace).reverse)

/-! ## prometheus_client registry model

The publisher manipulates `prometheus_client` collectors through
`registry._names_to_collectors`, `Gauge(...)`, `gauge.labels(**tags).set(v)`,
`gauge._metrics`, `gauge._labelnames` and `registry.unregister`.  The model
below reproduces exactly the behavior the publisher exercises: a registry is
an insertion-ordered collection of named collectors; a labeled gauge keeps an
insertion-ordered mapping from label-value tuples to the current value. -/

structure PGauge where
  name : String
  labelnames : List String
  metrics : List (List String × Rat)
  deriving Repr, DecidableEq

inductive Collector where
  | gauge (g : PGauge)
  | other (nm : String)
  deriving Repr, DecidableEq

def Collector.cname : Collector → String
  | Collector.gauge g => g.name
  | Collector.other nm => nm

structure CollectorRegistry where
  collectors : List Collector
  deriving Repr, DecidableEq

/-- `registry._names_to_collectors.get(name)`. -/
def CollectorRegistry.lookupName (r : CollectorRegistry) (nm : String) : Option Collector :=
  r.collectors.find? (fun c => c.cname == nm)

/-- `CollectorRegistry.register`, raising on a duplicated metric name. -/
def CollectorRegistry.registerC (r : CollectorRegistry) (c : Collector) :
    Except PyErr CollectorRegistry :=
  if r.collectors.any (fun x => x.cname == c.cname) then
    Except.error (PyErr.valueErr "Duplicated timeseries in CollectorRegistry")
  else Except.ok ⟨r.collectors ++ [c]⟩

/-- `CollectorRegistry.unregister`, raising `KeyError` when the collector is
not registered. -/
def CollectorRegistry.unregisterC (r : CollectorRegistry) (c : Collector) :
    Except PyErr CollectorRegistry :=
  if r.collectors.contains c then Except.ok ⟨r.collectors.erase c⟩
  else Except.error (PyErr.keyErr c.cname)

/-- `gauge.labels(**tags)`: validates the label names and returns the child's
label-value tuple, creating the child (initial value 0) when absent. -/
def PGauge.labelsChild (g : PGauge) (tags : List (String × String)) :
    Except PyErr (PGauge × List String) :=
  if (tags.map Prod.fst).isPerm g.labelnames then
    let lv := g.labelnames.map (fun l => (alistGet tags l).getD "")
    if (alistGet g.metrics lv).isSome then Except.ok (g, lv)
    else Except.ok ({ g with metrics := g.metrics ++ [(lv, 0)] }, lv)
  else Except.error (PyErr.valueErr "Incorrect label names")

/-- Replace the collector registered under `nm` (the in-place mutation of the
gauge object seen through the registry). -/
def regReplaceGauge (r : CollectorRegistry) (nm : String) (g : PGauge) : CollectorRegistry :=
  ⟨r.collectors.map (fun c => if c.cname == nm then Collector.gauge g else c)⟩

/-! ## PrometheusPublisher (src/service/prometheus/prometheus_publisher.py) -/

/-- Modelled from the spec: `src/service/constants.py` (which defines
`PROMETHEUS_METRIC_PREFIX`) is not part of the sources; the spec only states
that metric names carry a fixed service prefix. -/
def metricPrefixConst : String := "trustyai_"

/-- Events recorded by the embedding: scheduler log lines and the data-flow
milestones (dataframe fetches and calculator invocations) that the temporal
claims talk about. -/
inductive Event where
  | fetch (model : String) (batchSize : Nat) (rows : List Nat)
  | calc (model : String) (reqId : String) (reqBatchSize : Nat) (batch : List Nat)
  | skipLog (model : String)
  | warnNoCalculator (metric : String)
  | warnReplaced (nm : String)
  | errLog (e : PyErr)
  deriving Repr, DecidableEq

structure PrometheusPublisher where
  registry : CollectorRegistry
  values : List (String × Rat)
  deriving Repr, DecidableEq

/-- The tail of `_create_or_update_gauge`: build the `Gauge` (registering it),
then `gauge.labels(**tags).set(self.values[id])`.  Mutations performed before
an exception persist in the returned publisher, as they do in python. -/
def finishCreateGauge (p : PrometheusPublisher) (nm : String)
    (tags : List (String × String)) (id : String) (evs : List Event) :
    PrometheusPublisher × List Event × Option PyErr :=
  let g0 : PGauge := { name := nm, labelnames := tags.map Prod.fst, metrics := [] }
  match p.registry.registerC (Collector.gauge g0) with
  | Except.error e => (p, evs, some e)
  | Except.ok reg2 =>
    match g0.labelsChild tags with
    | Except.error e => ({ p with registry := reg2 }, evs, some e)
    | Except.ok (g1, lv) =>
      match alistGet p.values id with
      | none => ({ p with registry := regReplaceGauge reg2 nm g1 }, evs,
          some (PyErr.keyErr id))
      | some v =>
          let g2 : PGauge := { g1 with metrics := alistSet g1.metrics lv v }
          ({ p with registry := regReplaceGauge reg2 nm g2 }, evs, none)

/-- `PrometheusPublisher._create_or_update_gauge`.

Source bug kept faithfully: when the collector registered under `name` is
already a `Gauge`, the python local variable holding the gauge is never
assigned (the assignment only happens on the creation path), so the final
`gauge.labels(**tags).set(...)` raises `UnboundLocalError`. -/
def createOrUpdateGauge (p : PrometheusPublisher) (nm : String)
    (tags : List (String × String)) (id : String) :
    PrometheusPublisher × List Event × Option PyErr :=
  match p.registry.lookupName nm with
  | some (Collector.gauge _) => (p, [], some PyErr.unboundLocalErr)
  | some (Collector.other onm) =>
      match p.registry.unregisterC (Collector.other onm) with
      | Except.error e => (p, [], some e)
      | Except.ok reg1 =>
          finishCreateGauge { p with registry := reg1 } nm tags id
            [Event.warnReplaced nm]
  | none => finishCreateGauge p nm tags id []

/-- `PrometheusPublisher._generate_tags`. -/
def generateTags (model_name : String) (id : String)
    (request : Option BaseMetricRequest) : List (String × String) :=
  let tags : List (String × String) :=
    match request with
    | some req =>
        alistUpdateAll (alistUpdateAll [] req.retrieve_default_tags) req.retrieve_tags
    | none => if model_name ≠ "" then [("model", model_name)] else []
  alistSet tags "request" id

/-- `PrometheusPublisher.remove_gauge`: collect, for every label combination
whose `request` label equals `str(id)`, the (whole) owning gauge collector,
then unregister each collected collector in turn, then drop the id from the
value map.  The collected list can contain the same collector twice. -/
def unregisterAll (reg : CollectorRegistry) :
    List PGauge → CollectorRegistry × Option PyErr
  | [] => (reg, none)
  | g :: rest =>
      match reg.unregisterC (Collector.gauge g) with
      | Except.error e => (reg, some e)
      | Except.ok r2 => unregisterAll r2 rest

def PrometheusPublisher.remove_gauge (p : PrometheusPublisher) (nm : String)
    (id : String) : PrometheusPublisher × Option PyErr :=
  let full_name := metricPrefixConst ++ pyLower nm
  let gauges_to_remove := p.registry.collectors.foldl (fun acc c =>
    match c with
    | Collector.gauge g =>
        if g.name == full_name then
          acc ++ (g.metrics.filter
            (fun lvv => alistGet (g.labelnames.zip lvv.1) "request" == some id)).map
              (fun _ => g)
        else acc
    | Collector.other _ => acc) []
  match unregisterAll p.registry gauges_to_remove with
  | (reg2, some e) => ({ p with registry := reg2 }, some e)
  | (reg2, none) => (⟨reg2, alistErase p.values id⟩, none)

/-- The loop body of the `named_values` branch of `PrometheusPublisher.gauge`:
for each (key, value) pair, in insertion order with its positional index,
derive `new_id = uuid5(NAMESPACE_DNS, str(id) + str(idx))`, store the value
under `new_id`, and publish under the tags extended with
`subcategory=<key>`.  An exception aborts the remaining iterations. -/
def namedValuesLoop (full_metric_name : String) (req : BaseMetricRequest)
    (model_name : String) (id : String) :
    List (String × Rat) → Nat → PrometheusPublisher →
    PrometheusPublisher × List Event × Option PyErr
  | [], _, p => (p, [], none)
  | (key, val) :: rest, idx, p =>
      let new_id := uuid5dns (id ++ Nat.repr idx)
      let p1 : PrometheusPublisher := { p with values := alistSet p.values new_id val }
      let tags := alistSet (generateTags model_name id (some req)) "subcategory" key
      match createOrUpdateGauge p1 full_metric_name tags new_id with
      | (p2, evs, some e) => (p2, evs, some e)
      | (p2, evs, none) =>
          match namedValuesLoop full_metric_name req model_name id rest (idx + 1) p2 with
          | (p3, evs2, err) => (p3, evs ++ evs2, err)

/-- `PrometheusPublisher.gauge`: the three caller shapes.  A call satisfying
none of the shapes silently does nothing, as in the source. -/
def PrometheusPublisher.gauge (p : PrometheusPublisher) (model_name : String)
    (id : String) (request : Option BaseMetricRequest) (value : Option Rat)
    (named_values : Option (List (String × Rat))) (metric_name : Option String) :
    PrometheusPublisher × List Event × Option PyErr :=
  match request, value, named_values with
  | some req, some v, _ =>
      let full_metric_name := metricPrefixConst ++ pyLower req.metric_name
      let p1 : PrometheusPublisher := { p with values := alistSet p.values id v }
      let tags := generateTags model_name id (some req)
      createOrUpdateGauge p1 full_metric_name tags id
  | some req, none, some nvs =>
      let full_metric_name := metricPrefixConst ++ pyLower req.metric_name
      namedValuesLoop full_metric_name req model_name id nvs 0 p
  | _, _, _ =>
      match metric_name, value with
      | some mn, some v =>
          let full_metric_name := metricPrefixConst ++ pyLower mn
          let p1 : PrometheusPublisher := { p with values := alistSet p.values id v }
          let tags := generateTags model_name id none
          createOrUpdateGauge p1 full_metric_name tags id
      | _, _ => (p, [], none)

/-! ## DataSource and MetricsDirectory interfaces -/

/-- Interface model of `src/service/data/datasources/data_source.py`.  The
spec (sections 1 and 6) treats the data source as an external collaborator
specified only at its interface; its implementation reads storage through
`ModelData`, which is not among the sources.  Each field is one of the
methods the scheduler and reconciler call; a dataframe is its list of rows. -/
structure DataSource where
  get_verified_models : Except PyErr (List String)
  get_num_observations : String → Except PyErr Nat
  has_recorded_inferences : String → Except PyErr Bool
  get_organic_dataframe : String → Nat → Except PyErr (List Nat)
  get_metadata : String → Except PyErr StorageMetadata

/-- Modelled from the spec: `src/endpoints/metrics/metrics_directory.py` is
not among the sources; spec section 6 specifies
`get_calculator(metric_name) -> callable(batch, request) -> ValueCarrier, or
absent`. -/
structure MetricsDirectory where
  get_calculator : String → Option (List Nat → BaseMetricRequest → MetricValueCarrier)

/-- The environment-sourced service configuration (`_get_service_config`). -/
structure ServiceConfig where
  batch_size : Nat
  metrics_schedule : String

/-! ## RequestReconciler (src/service/payloads/metrics/request_reconciler.py) -/

def reconcileAll (md : StorageMetadata) :
    List (StorageMetadata → Except PyErr Unit) → Except PyErr Unit
  | [] => Except.ok ()
  | f :: rest =>
      match f md with
      | Except.error e => Except.error e
      | Except.ok _ => reconcileAll md rest

/-- `RequestReconciler.reconcile`: fetch the model's storage metadata, then
run `reconcile(storage_metadata)` on every reconcilable attribute of the
request; any exception is re-raised to the caller. -/
def RequestReconciler.reconcile (request : BaseMetricRequest) (ds : DataSource) :
    Except PyErr Unit :=
  match ds.get_metadata request.model_id with
  | Except.error e => Except.error e
  | Except.ok md => reconcileAll md request.reconcilables

/-! ## PrometheusScheduler (src/service/prometheus/prometheus_scheduler.py) -/

structure SchedulerState where
  requests : List (String × List (String × BaseMetricRequest))
  has_logged_skipped_request_message : List String
  publisher : PrometheusPublisher

/-- `PrometheusScheduler.get_requests`. -/
def PrometheusScheduler.get_requests (st : SchedulerState) (metric_name : String) :
    List (String × BaseMetricRequest) :=
  (alistGet st.requests metric_name).getD []

/-- `PrometheusScheduler.get_all_requests_flat`: python
`result = {}; for metric_dict in self.requests.values(): result.update(metric_dict)`. -/
def PrometheusScheduler.get_all_requests_flat (st : SchedulerState) :
    List (String × BaseMetricRequest) :=
  st.requests.foldl (fun acc b => alistUpdateAll acc b.2) []

/-- `PrometheusScheduler.has_requests`. -/
def PrometheusScheduler.has_requests (st : SchedulerState) : Bool :=
  st.requests.any (fun b => !b.2.isEmpty)

/-- `PrometheusScheduler.get_model_ids` (a python set, modelled as a
duplicate-free list in first-insertion order; only membership is used). -/
def PrometheusScheduler.get_model_ids (st : SchedulerState) : List String :=
  (PrometheusScheduler.get_all_requests_flat st).foldl
    (fun acc p => if acc.contains p.2.model_id then acc else acc ++ [p.2.model_id]) []

/-- `PrometheusScheduler.register`: creates the (possibly empty) bucket,
reconciles — a reconciliation error propagates and the request is not
inserted — then inserts the request. -/
def PrometheusScheduler.register (ds : DataSource) (st : SchedulerState)
    (metric_name : String) (id : String) (request : BaseMetricRequest) :
    SchedulerState × Option PyErr :=
  let requests1 :=
    if (alistGet st.requests metric_name).isNone then alistSet st.requests metric_name []
    else st.requests
  match RequestReconciler.reconcile request ds with
  | Except.error e => ({ st with requests := requests1 }, some e)
  | Except.ok _ =>
      let bucket := (alistGet requests1 metric_name).getD []
      ({ st with requests := alistSet requests1 metric_name (alistSet bucket id request) },
        none)

/-- `PrometheusScheduler.delete`: removes the entry when present, then always
asks the publisher to remove the gauges of `id` under `metric_name`. -/
def PrometheusScheduler.delete (st : SchedulerState) (metric_name : String)
    (id : String) : SchedulerState × Option PyErr :=
  let requests1 :=
    match alistGet st.requests metric_name with
    | some bucket =>
        if (alistGet bucket id).isSome then
          alistSet st.requests metric_name (alistErase bucket id)
        else st.requests
    | none => st.requests
  match st.publisher.remove_gauge metric_name id with
  | (p2, err) => ({ st with requests := requests1, publisher := p2 }, err)

/-- `df.tail(n)` for a dataframe given as its rows. -/
def dfTail (df : List Nat) (n : Nat) : List Nat :=
  df.drop (df.length - n)

/-- python `max(list, default=d)`. -/
def listMaxD : List Nat → Nat → Nat
  | [], d => d
  | x :: xs, _ => xs.foldl Nat.max x

/-- The local `requests_for_model` of `calculate_manual`: the flattened
request view filtered to one model. -/
def requestsForModel (st : SchedulerState) (model_id : String) :
    List (String × BaseMetricRequest) :=
  (PrometheusScheduler.get_all_requests_flat st).filter
    (fun p => p.2.model_id == model_id)

/-- The local `max_batch_size` of `calculate_manual`. -/
def maxBatchSizeFor (cfg : ServiceConfig) (st : SchedulerState) (model_id : String) : Nat :=
  listMaxD ((requestsForModel st model_id).map (fun p => p.2.batch_size)) cfg.batch_size

/-- Publishing one computed carrier (`if value.is_single(): ... else: ...`
in the per-request loop of `calculate_manual`). -/
def publishCarrier (p : PrometheusPublisher) (model_id : String) (req_id : String)
    (request : BaseMetricRequest) (value : MetricValueCarrier) :
    PrometheusPublisher × List Event × Option PyErr :=
  if value.is_single then
    match value.get_value with
    | Except.ok v => p.gauge model_id req_id (some request) v none none
    | Except.error e => (p, [], some e)
  else
    match value.get_named_values with
    | Except.ok nv => p.gauge model_id req_id (some request) none nv none
    | Except.error e => (p, [], some e)

/-- The per-request loop body of `calculate_manual`: slice the trailing
`min(request.batch_size, df.shape[0])` rows, look up the calculator, invoke
it and publish the resulting carrier (warning and skipping when the metric
has no calculator). -/
def processRequests (md : MetricsDirectory) (model_id : String) (df : List Nat) :
    List (String × BaseMetricRequest) → PrometheusPublisher →
    PrometheusPublisher × List Event × Option PyErr
  | [], p => (p, [], none)
  | (req_id, request) :: rest, p =>
      let batch_size := Nat.min request.batch_size df.length
      let batch := dfTail df batch_size
      match md.get_calculator request.metric_name with
      | none =>
          match processRequests md model_id df rest p with
          | (p2, evs2, err2) =>
              (p2, Event.warnNoCalculator request.metric_name :: evs2, err2)
      | some calculator =>
          let value := calculator batch request
          let ev0 := Event.calc model_id req_id request.batch_size batch
          match publishCarrier p model_id req_id request value with
          | (p1, evs1, some e) => (p1, ev0 :: evs1, some e)
          | (p1, evs1, none) =>
              match processRequests md model_id df rest p1 with
              | (p2, evs2, err2) => (p2, ev0 :: (evs1 ++ evs2), err2)

/-- The per-model loop body of `calculate_manual` (steps 4a-4c of the spec's
state machine): publish `MODEL_OBSERVATIONS_TOTAL`, handle the
no-recorded-inferences warm-up skip with its deduplicated log line, and
otherwise fetch one organic batch and process every matching request. -/
def processOneModel (cfg : ServiceConfig) (ds : DataSource) (md : MetricsDirectory)
    (requested_models : List String) (model_id : String) (st : SchedulerState) :
    SchedulerState × List Event × Option PyErr :=
  match ds.get_num_observations model_id with
  | Except.error e => (st, [], some e)
  | Except.ok total_observations =>
    match st.publisher.gauge model_id (uuid5dns model_id) none
        (some (total_observations : Rat)) none (some "MODEL_OBSERVATIONS_TOTAL") with
    | (p1, evs1, err1) =>
      let st1 : SchedulerState := { st with publisher := p1 }
      match err1 with
      | some e => (st1, evs1, some e)
      | none =>
        match ds.has_recorded_inferences model_id with
        | Except.error e => (st1, evs1, some e)
        | Except.ok hri =>
          if !hri then
            if st1.has_logged_skipped_request_message.contains model_id then
              (st1, evs1, none)
            else
              ({ st1 with has_logged_skipped_request_message :=
                  st1.has_logged_skipped_request_message ++ [model_id] },
                evs1 ++ [Event.skipLog model_id], none)
          else
            if PrometheusScheduler.has_requests st1 &&
                requested_models.contains model_id then
              let requests_for_model := requestsForModel st1 model_id
              let max_batch_size := maxBatchSizeFor cfg st1 model_id
              match ds.get_organic_dataframe model_id max_batch_size with
              | Except.error e => (st1, evs1, some e)
              | Except.ok df =>
                  match processRequests md model_id df requests_for_model st1.publisher with
                  | (p2, evs3, err3) =>
                      ({ st1 with publisher := p2 },
                        (evs1 ++ [Event.fetch model_id max_batch_size df]) ++ evs3, err3)
            else (st1, evs1, none)

/-- The `for model_id in verified_models` loop of `calculate_manual`. -/
def processModels (cfg : ServiceConfig) (ds : DataSource) (md : MetricsDirectory)
    (requested_models : List String) :
    List String → SchedulerState → SchedulerState × List Event × Option PyErr
  | [], st => (st, [], none)
  | m :: rest, st =>
      match processOneModel cfg ds md requested_models m st with
      | (st1, evs1, some e) => (st1, evs1, some e)
      | (st1, evs1, none) =>
          match processModels cfg ds md requested_models rest st1 with
          | (st2, evs2, err) => (st2, evs1 ++ evs2, err)

/-- The body of the `try` block of `calculate_manual`: fetch the verified
models, publish the global `MODEL_COUNT_TOTAL` statistic, compute the
requested models, and iterate over the verified models. -/
def calculateBody (cfg : ServiceConfig) (ds : DataSource) (md : MetricsDirectory)
    (st : SchedulerState) : SchedulerState × List Event × Option PyErr :=
  match ds.get_verified_models with
  | Except.error e => (st, [], some e)
  | Except.ok verified_models =>
    match st.publisher.gauge "" (uuid5dns "model_count") none
        (some (verified_models.length : Rat)) none (some "MODEL_COUNT_TOTAL") with
    | (p1, evs1, err1) =>
      let st1 : SchedulerState := { st with publisher := p1 }
      match err1 with
      | some e => (st1, evs1, some e)
      | none =>
        let requested_models := PrometheusScheduler.get_model_ids st1
        match processModels cfg ds md requested_models verified_models st1 with
        | (st2, evs2, err2) => (st2, evs1 ++ evs2, err2)

/-- `PrometheusScheduler.calculate_manual`: the whole body runs under a
`try`; when it raises, `throw_errors=True` re-raises the exception to the
caller, and `throw_errors=False` logs it instead. -/
def PrometheusScheduler.calculate_manual (cfg : ServiceConfig) (ds : DataSource)
    (md : MetricsDirectory) (st : SchedulerState) (throw_errors : Bool) :
    SchedulerState × List Event × Option PyErr :=
  match calculateBody cfg ds md st with
  | (st1, evs, some e) =>
      if throw_errors then (st1, evs, some e)
      else (st1, evs ++ [Event.errLog e], none)
  | r => r

def digitsVal : List Char → Option Nat
  | [] => none
  | cs =>
      cs.foldl (fun acc c =>
        match acc with
        | none => none
        | some n => if c.isDigit then some (n * 10 + (c.toNat - 48)) else none)
        (some 0)

/-- python `int(s)` on a decimal string: surrounding whitespace is stripped,
an optional sign is accepted, and anything else raises `ValueError`. -/
def pyParseInt (s : String) : Except PyErr Int :=
  let t := pyStrip s
  let badMsg := "invalid literal for int() with base 10"
  match t.data with
  | '-' :: rest =>
      match digitsVal rest with
      | some n => Except.ok (-(n : Int))
      | none => Except.error (PyErr.valueErr badMsg)
  | '+' :: rest =>
      match digitsVal rest with
      | some n => Except.ok (n : Int)
      | none => Except.error (PyErr.valueErr badMsg)
  | cs =>
      match digitsVal cs with
      | some n => Except.ok (n : Int)
      | none => Except.error (PyErr.valueErr badMsg)

/-- The interval parsing at the top of `_periodic_calculation_task`:
a trailing `s` means seconds, a trailing `m` means minutes, and anything
else falls back to the default of 30 seconds.  There is no hours branch. -/
def parseScheduleInterval (metrics_schedule : String) : Except PyErr Int :=
  if strEndsWith metrics_schedule "s" then pyParseInt (metrics_schedule.dropRight 1)
  else if strEndsWith metrics_schedule "m" then
    match pyParseInt (metrics_schedule.dropRight 1) with
    | Except.error e => Except.error e
    | Except.ok n => Except.ok (n * 60)
  else Except.ok 30

/-- The `while True` loop of `_periodic_calculation_task`, truncated to `k`
ticks: each tick runs `calculate_manual(False)` (which already swallows and
logs exceptions) and proceeds to the next tick.  The sleep between ticks is
irrelevant to the embedded state. -/
def runPeriodicPasses (cfg : ServiceConfig) (ds : DataSource) (md : MetricsDirectory) :
    Nat → SchedulerState → SchedulerState × List Event
  | 0, st => (st, [])
  | k + 1, st =>
      match PrometheusScheduler.calculate_manual cfg ds md st false with
      | (st1, evs1, _) =>
          match runPeriodicPasses cfg ds md k st1 with
          | (st2, evs2) => (st2, evs1 ++ evs2)

/-! ## Trace accounting helpers -/

/-- Contribution of one event to the skip-log count for model `m`. -/
def skipVal (m : String) : Event → Nat
  | Event.skipLog m2 => if m2 = m then 1 else 0
  | _ => 0

/-- Number of skip-log lines for model `m` in a trace. -/
def countSkips (m : String) (evs : List Event) : Nat :=
  (evs.map (skipVal m)).sum

/-- Traces produced by publisher operations contain nothing but
collector-replacement warnings. -/
def onlyWarnReplaced (evs : List Event) : Prop :=
  ∀ e ∈ evs, ∃ s, e = Event.warnReplaced s

theorem countSkips_append (m : String) (a b : List Event) :
    countSkips m (a ++ b) = countSkips m a + countSkips m b := by
  simp [countSkips]

theorem onlyWarnReplaced_countSkips (m : String) (evs : List Event)
    (h : onlyWarnReplaced evs) : countSkips m evs = 0 := by
  induction evs with
  | nil => simp [countSkips]
  | cons e rest ih =>
      obtain ⟨s, hs⟩ := h e (List.mem_cons_self e rest)
      subst hs
      have := ih (fun x hx => h x (List.mem_cons_of_mem _ hx))
      simp [countSkips, skipVal] at this ⊢
      exact this

theorem finishCreateGauge_trace (p : PrometheusPublisher) (nm : String)
    (tags : List (String × String)) (id : String) (evs : List Event) :
    (finishCreateGauge p nm tags id evs).2.1 = evs := by
  unfold finishCreateGauge
  dsimp only
  repeat' split
  all_goals rfl

theorem createOrUpdateGauge_trace (p : PrometheusPublisher) (nm : String)
    (tags : List (String × String)) (id : String) :
    (createOrUpdateGauge p nm tags id).2.1 = [] ∨
    (createOrUpdateGauge p nm tags id).2.1 = [Event.warnReplaced nm] := by
  unfold createOrUpdateGauge
  split
  · exact Or.inl rfl
  · split
    · exact Or.inl rfl
    · exact Or.inr (finishCreateGauge_trace _ _ _ _ _)
  · exact Or.inl (finishCreateGauge_trace _ _ _ _ _)

theorem createOrUpdateGauge_onlyWarn (p : PrometheusPublisher) (nm : String)
    (tags : List (String × String)) (id : String) :
    onlyWarnReplaced (createOrUpdateGauge p nm tags id).2.1 := by
  rcases createOrUpdateGauge_trace p nm tags id with h | h <;> rw [h]
  · intro e he
    cases he
  · intro e he
    rcases List.mem_singleton.mp he with rfl
    exact ⟨nm, rfl⟩

theorem namedValuesLoop_onlyWarn (full : String) (req : BaseMetricRequest)
    (model_name : String) (id : String) (nvs : List (String × Rat)) (idx : Nat)
    (p : PrometheusPublisher) :
    onlyWarnReplaced (namedValuesLoop full req model_name id nvs idx p).2.1 := by
  induction nvs generalizing idx p with
  | nil => intro e he; cases he
  | cons kv rest ih =>
      obtain ⟨key, val⟩ := kv
      simp only [namedValuesLoop]
      split
      · rename_i p2 evs e heq
        intro x hx
        have hw := createOrUpdateGauge_onlyWarn
          ({ p with values := alistSet p.values (uuid5dns (id ++ Nat.repr idx)) val })
          full (alistSet (generateTags model_name id (some req)) "subcategory" key)
          (uuid5dns (id ++ Nat.repr idx))
        rw [heq] at hw
        exact hw x hx
      · rename_i p2 evs heq
        intro x hx
        replace hx : x ∈ evs ++ (namedValuesLoop full req model_name id rest (idx + 1) p2).2.1 := hx
        rcases List.mem_append.mp hx with hx1 | hx2
        · have hw := createOrUpdateGauge_onlyWarn
            ({ p with values := alistSet p.values (uuid5dns (id ++ Nat.repr idx)) val })
            full (alistSet (generateTags model_name id (some req)) "subcategory" key)
            (uuid5dns (id ++ Nat.repr idx))
          rw [heq] at hw
          exact hw x hx1
        · exact ih (idx + 1) p2 x hx2

theorem gauge_onlyWarn (p : PrometheusPublisher) (model_name : String) (id : String)
    (request : Option BaseMetricRequest) (value : Option Rat)
    (named_values : Option (List (String × Rat))) (metric_name : Option String) :
    onlyWarnReplaced (p.gauge model_name id request value named_values metric_name).2.1 := by
  unfold PrometheusPublisher.gauge
  split
  · exact createOrUpdateGauge_onlyWarn _ _ _ _
  · exact namedValuesLoop_onlyWarn _ _ _ _ _ _ _
  · split
    · exact createOrUpdateGauge_onlyWarn _ _ _ _
    · intro e he; cases he

theorem publishCarrier_onlyWarn (p : PrometheusPublisher) (model_id req_id : String)
    (request : BaseMetricRequest) (value : MetricValueCarrier) :
    onlyWarnReplaced (publishCarrier p model_id req_id request value).2.1 := by
  unfold publishCarrier
  split
  · split
    · exact gauge_onlyWarn _ _ _ _ _ _ _
    · intro e he; cases he
  · split
    · exact gauge_onlyWarn _ _ _ _ _ _ _
    · intro e he; cases he

theorem processRequests_events (md : MetricsDirectory) (model_id : String)
    (df : List Nat) (reqs : List (String × BaseMetricRequest)) (p : PrometheusPublisher) :
    ∀ e ∈ (processRequests md model_id df reqs p).2.1,
      (∃ s, e = Event.warnReplaced s) ∨ (∃ s, e = Event.warnNoCalculator s) ∨
      (∃ rid r, (rid, r) ∈ reqs ∧
        e = Event.calc model_id rid r.batch_size
          (dfTail df (Nat.min r.batch_size df.length))) := by
  induction reqs generalizing p with
  | nil => intro e he; cases he
  | cons hd rest ih =>
      obtain ⟨req_id, request⟩ := hd
      simp only [processRequests]
      split
      · intro e he
        replace he : e ∈ Event.warnNoCalculator request.metric_name ::
            (processRequests md model_id df rest p).2.1 := he
        rcases List.mem_cons.mp he with rfl | he2
        · exact Or.inr (Or.inl ⟨request.metric_name, rfl⟩)
        · rcases ih p e he2 with h | h | ⟨rid, r, hmem, hcalc⟩
          · exact Or.inl h
          · exact Or.inr (Or.inl h)
          · exact Or.inr (Or.inr ⟨rid, r, List.mem_cons_of_mem _ hmem, hcalc⟩)
      · rename_i calculator hcal
        split
        · rename_i p1 evs1 e2 heq
          intro e he
          rcases List.mem_cons.mp he with rfl | he2
          · exact Or.inr (Or.inr ⟨req_id, request, List.mem_cons_self _ _, rfl⟩)
          · have hw := publishCarrier_onlyWarn p model_id req_id request
              (calculator (dfTail df (Nat.min request.batch_size df.length)) request)
            rw [heq] at hw
            exact Or.inl (hw e he2)
        · rename_i p1 evs1 heq
          intro e he
          replace he : e ∈ Event.calc model_id req_id request.batch_size
              (dfTail df (Nat.min request.batch_size df.length)) ::
              (evs1 ++ (processRequests md model_id df rest p1).2.1) := he
          rcases List.mem_cons.mp he with rfl | he2
          · exact Or.inr (Or.inr ⟨req_id, request, List.mem_cons_self _ _, rfl⟩)
          · rcases List.mem_append.mp he2 with he3 | he4
            · have hw := publishCarrier_onlyWarn p model_id req_id request
                (calculator (dfTail df (Nat.min request.batch_size df.length)) request)
              rw [heq] at hw
              exact Or.inl (hw e he3)
            · rcases ih p1 e he4 with h | h | ⟨rid, r, hmem, hcalc⟩
              · exact Or.inl h
              · exact Or.inr (Or.inl h)
              · exact Or.inr (Or.inr ⟨rid, r, List.mem_cons_of_mem _ hmem, hcalc⟩)

theorem processOneModel_requests_eq (cfg : ServiceConfig) (ds : DataSource)
    (md : MetricsDirectory) (rq : List String) (m : String) (st : SchedulerState) :
    (processOneModel cfg ds md rq m st).1.requests = st.requests := by
  unfold processOneModel
  dsimp only
  repeat' split
  all_goals rfl

theorem processOneModel_skiplog (cfg : ServiceConfig) (ds : DataSource)
    (md : MetricsDirectory) (rq : List String) (m : String) (st : SchedulerState) :
    ∃ t, (processOneModel cfg ds md rq m st).1.has_logged_skipped_request_message =
      st.has_logged_skipped_request_message ++ t := by
  unfold processOneModel
  dsimp only
  repeat' split
  all_goals first
    | exact ⟨[], (List.append_nil _).symm⟩
    | exact ⟨[m], rfl⟩

theorem processOneModel_events (cfg : ServiceConfig) (ds : DataSource)
    (md : MetricsDirectory) (rq : List String) (m : String) (st : SchedulerState)
    (res : SchedulerState × List Event × Option PyErr)
    (hres : processOneModel cfg ds md rq m st = res) :
    ∀ e ∈ res.2.1,
      (∃ s, e = Event.warnReplaced s) ∨ (∃ s, e = Event.warnNoCalculator s) ∨
      e = Event.skipLog m ∨
      (∃ rows, ds.get_organic_dataframe m (maxBatchSizeFor cfg st m) = Except.ok rows ∧
        e = Event.fetch m (maxBatchSizeFor cfg st m) rows) ∨
      (∃ rid r rows, (rid, r) ∈ requestsForModel st m ∧
        ds.get_organic_dataframe m (maxBatchSizeFor cfg st m) = Except.ok rows ∧
        e = Event.calc m rid r.batch_size (dfTail rows (Nat.min r.batch_size rows.length)) ∧
        Event.fetch m (maxBatchSizeFor cfg st m) rows ∈ res.2.1) := by
  unfold processOneModel at hres
  dsimp only at hres
  split at hres
  · subst hres
    intro e he
    cases he
  · rename_i n hobs
    have hw1 : onlyWarnReplaced (st.publisher.gauge m (uuid5dns m) none
        (some (n : Rat)) none (some "MODEL_OBSERVATIONS_TOTAL")).2.1 :=
      gauge_onlyWarn _ _ _ _ _ _ _
    split at hres
    · subst hres
      intro e he
      exact Or.inl (hw1 e he)
    · split at hres
      · subst hres
        intro e he
        exact Or.inl (hw1 e he)
      · split at hres
        · split at hres
          · subst hres
            intro e he
            exact Or.inl (hw1 e he)
          · subst hres
            intro e he
            rcases List.mem_append.mp he with h1 | h2
            · exact Or.inl (hw1 e h1)
            · rcases List.mem_singleton.mp h2 with rfl
              exact Or.inr (Or.inr (Or.inl rfl))
        · split at hres
          · split at hres
            · subst hres
              intro e he
              exact Or.inl (hw1 e he)
            · rename_i df hdf
              subst hres
              intro e he
              rcases List.mem_append.mp he with h1 | h2
              · rcases List.mem_append.mp h1 with h3 | h4
                · exact Or.inl (hw1 e h3)
                · rcases List.mem_singleton.mp h4 with rfl
                  exact Or.inr (Or.inr (Or.inr (Or.inl ⟨df, hdf, rfl⟩)))
              · rcases processRequests_events md m df (requestsForModel st m) _ e h2
                  with h | h | ⟨rid, r, hmem, hcalc⟩
                · exact Or.inl h
                · exact Or.inr (Or.inl h)
                · refine Or.inr (Or.inr (Or.inr (Or.inr ⟨rid, r, df, hmem, hdf, hcalc, ?_⟩)))
                  exact List.mem_append.mpr (Or.inl (List.mem_append.mpr (Or.inr
                    (List.mem_singleton.mpr rfl))))
          · subst hres
            intro e he
            exact Or.inl (hw1 e he)

/-- One unit of skip-log budget per model not yet in the Skip-Log Memory. -/
def skipBudget (x : String) (st : SchedulerState) : Nat :=
  if x ∈ st.has_logged_skipped_request_message then 0 else 1

theorem countSkips_eq_zero (x : String) (evs : List Event)
    (h : ∀ e ∈ evs, skipVal x e = 0) : countSkips x evs = 0 := by
  unfold countSkips
  apply List.sum_eq_zero
  intro v hv
  rcases List.mem_map.mp hv with ⟨e, he, rfl⟩
  exact h e he

theorem processRequests_countSkips (md : MetricsDirectory) (model_id : String)
    (df : List Nat) (reqs : List (String × BaseMetricRequest))
    (p : PrometheusPublisher) (x : String) :
    countSkips x (processRequests md model_id df reqs p).2.1 = 0 := by
  apply countSkips_eq_zero
  intro e he
  rcases processRequests_events md model_id df reqs p e he with
    ⟨s, rfl⟩ | ⟨s, rfl⟩ | ⟨rid, r, _, rfl⟩ <;> simp [skipVal]

theorem processOneModel_skipcount (cfg : ServiceConfig) (ds : DataSource)
    (md : MetricsDirectory) (rq : List String) (m : String) (st : SchedulerState)
    (res : SchedulerState × List Event × Option PyErr)
    (hres : processOneModel cfg ds md rq m st = res) (x : String) :
    countSkips x res.2.1 + skipBudget x res.1 ≤ skipBudget x st := by
  unfold processOneModel at hres
  dsimp only at hres
  split at hres
  · subst hres
    simp [countSkips, skipBudget]
  · rename_i n hobs
    have hw1 : countSkips x (st.publisher.gauge m (uuid5dns m) none
        (some (n : Rat)) none (some "MODEL_OBSERVATIONS_TOTAL")).2.1 = 0 :=
      onlyWarnReplaced_countSkips _ _ (gauge_onlyWarn _ _ _ _ _ _ _)
    split at hres
    · subst hres
      simp [skipBudget, hw1]
    · split at hres
      · subst hres
        simp [skipBudget, hw1]
      · split at hres
        · split at hres
          · subst hres
            simp [skipBudget, hw1]
          · rename_i hnotin
            subst hres
            by_cases hx : x = m
            · subst hx
              have hb : skipBudget x st = 1 := by
                have hni : x ∉ st.has_logged_skipped_request_message := by
                  intro hmem
                  exact hnotin (by simpa using hmem)
                simp [skipBudget, hni]
              rw [countSkips_append, hw1, hb]
              simp [countSkips, skipVal, skipBudget]
            · have hxm : m ≠ x := fun h => hx h.symm
              rw [countSkips_append, hw1]
              have hb : (if x ∈ st.has_logged_skipped_request_message ++ [m] then 0 else 1) =
                  skipBudget x st := by
                simp only [skipBudget, List.mem_append, List.mem_singleton]
                simp [hx]
              simp only [skipBudget] at hb ⊢
              simp [countSkips, skipVal, hxm, hx]
        · split at hres
          · split at hres
            · subst hres
              simp [skipBudget, hw1]
            · subst hres
              rw [countSkips_append, countSkips_append, hw1, processRequests_countSkips]
              simp [skipBudget, countSkips, skipVal]
          · subst hres
            simp [skipBudget, hw1]

theorem requestsForModel_congr (st1 st2 : SchedulerState)
    (h : st1.requests = st2.requests) (m : String) :
    requestsForModel st1 m = requestsForModel st2 m := by
  unfold requestsForModel PrometheusScheduler.get_all_requests_flat
  rw [h]

theorem maxBatchSizeFor_congr (cfg : ServiceConfig) (st1 st2 : SchedulerState)
    (h : st1.requests = st2.requests) (m : String) :
    maxBatchSizeFor cfg st1 m = maxBatchSizeFor cfg st2 m := by
  unfold maxBatchSizeFor
  rw [requestsForModel_congr st1 st2 h m]

theorem processModels_requests_eq (cfg : ServiceConfig) (ds : DataSource)
    (md : MetricsDirectory) (rq : List String) (ms : List String) (st : SchedulerState) :
    (processModels cfg ds md rq ms st).1.requests = st.requests := by
  induction ms generalizing st with
  | nil => rfl
  | cons m rest ih =>
      simp only [processModels]
      split
      · rename_i st1 evs1 e hone
        have := processOneModel_requests_eq cfg ds md rq m st
        rw [hone] at this
        exact this
      · rename_i st1 evs1 hone
        have h1 := processOneModel_requests_eq cfg ds md rq m st
        rw [hone] at h1
        calc (processModels cfg ds md rq rest st1).1.requests
            = st1.requests := ih st1
          _ = st.requests := h1

theorem processModels_skiplog (cfg : ServiceConfig) (ds : DataSource)
    (md : MetricsDirectory) (rq : List String) (ms : List String) (st : SchedulerState) :
    ∃ t, (processModels cfg ds md rq ms st).1.has_logged_skipped_request_message =
      st.has_logged_skipped_request_message ++ t := by
  induction ms generalizing st with
  | nil => exact ⟨[], (List.append_nil _).symm⟩
  | cons m rest ih =>
      simp only [processModels]
      split
      · rename_i st1 evs1 e hone
        have := processOneModel_skiplog cfg ds md rq m st
        rw [hone] at this
        exact this
      · rename_i st1 evs1 hone
        have h1 := processOneModel_skiplog cfg ds md rq m st
        rw [hone] at h1
        obtain ⟨t1, ht1⟩ := h1
        obtain ⟨t2, ht2⟩ := ih st1
        exact ⟨t1 ++ t2, by rw [ht2, ht1, List.append_assoc]⟩

theorem processModels_skipcount (cfg : ServiceConfig) (ds : DataSource)
    (md : MetricsDirectory) (rq : List String) (ms : List String) (st : SchedulerState)
    (x : String) :
    countSkips x (processModels cfg ds md rq ms st).2.1 +
      skipBudget x (processModels cfg ds md rq ms st).1 ≤ skipBudget x st := by
  induction ms generalizing st with
  | nil => simp [processModels, countSkips]
  | cons m rest ih =>
      simp only [processModels]
      split
      · rename_i st1 evs1 e hone
        have := processOneModel_skipcount cfg ds md rq m st _ hone x
        exact this
      · rename_i st1 evs1 hone
        have h1 := processOneModel_skipcount cfg ds md rq m st _ hone x
        have h2 := ih st1
        dsimp only at h1 ⊢
        rw [countSkips_append, Nat.add_assoc]
        exact le_trans (Nat.add_le_add_left h2 _) h1

theorem processModels_events (cfg : ServiceConfig) (ds : DataSource)
    (md : MetricsDirectory) (rq : List String) (ms : List String) (st : SchedulerState)
    (res : SchedulerState × List Event × Option PyErr)
    (hres : processModels cfg ds md rq ms st = res) :
    ∀ e ∈ res.2.1,
      (∃ s, e = Event.warnReplaced s) ∨ (∃ s, e = Event.warnNoCalculator s) ∨
      (∃ s, e = Event.skipLog s) ∨
      (∃ m rows, ds.get_organic_dataframe m (maxBatchSizeFor cfg st m) = Except.ok rows ∧
        e = Event.fetch m (maxBatchSizeFor cfg st m) rows) ∨
      (∃ m rid r rows, (rid, r) ∈ requestsForModel st m ∧
        ds.get_organic_dataframe m (maxBatchSizeFor cfg st m) = Except.ok rows ∧
        e = Event.calc m rid r.batch_size (dfTail rows (Nat.min r.batch_size rows.length)) ∧
        Event.fetch m (maxBatchSizeFor cfg st m) rows ∈ res.2.1) := by
  induction ms generalizing st res with
  | nil =>
      subst hres
      intro e he
      cases he
  | cons m rest ih =>
      simp only [processModels] at hres
      split at hres
      · rename_i st1 evs1 e2 hone
        subst hres
        intro e he
        rcases processOneModel_events cfg ds md rq m st _ hone e he with
          h | h | h | ⟨rows, hdf, hfe⟩ | ⟨rid, r, rows, hmem, hdf, hce, hfm⟩
        · exact Or.inl h
        · exact Or.inr (Or.inl h)
        · exact Or.inr (Or.inr (Or.inl ⟨m, h⟩))
        · exact Or.inr (Or.inr (Or.inr (Or.inl ⟨m, rows, hdf, hfe⟩)))
        · exact Or.inr (Or.inr (Or.inr (Or.inr ⟨m, rid, r, rows, hmem, hdf, hce, hfm⟩)))
      · rename_i st1 evs1 hone
        have hreq : st1.requests = st.requests := by
          have := processOneModel_requests_eq cfg ds md rq m st
          rw [hone] at this
          exact this
        subst hres
        intro e he
        dsimp only at he ⊢
        rcases List.mem_append.mp he with h1 | h2
        · rcases processOneModel_events cfg ds md rq m st (st1, evs1, none) hone e h1 with
            h | h | h | ⟨rows, hdf, hfe⟩ | ⟨rid, r, rows, hmem, hdf, hce, hfm⟩
          · exact Or.inl h
          · exact Or.inr (Or.inl h)
          · exact Or.inr (Or.inr (Or.inl ⟨m, h⟩))
          · exact Or.inr (Or.inr (Or.inr (Or.inl ⟨m, rows, hdf, hfe⟩)))
          · refine Or.inr (Or.inr (Or.inr (Or.inr ⟨m, rid, r, rows, hmem, hdf, hce, ?_⟩)))
            exact List.mem_append.mpr (Or.inl hfm)
        · rcases ih st1 _ rfl e h2 with
            h | h | h | ⟨m2, rows, hdf, hfe⟩ | ⟨m2, rid, r, rows, hmem, hdf, hce, hfm⟩
          · exact Or.inl h
          · exact Or.inr (Or.inl h)
          · exact Or.inr (Or.inr (Or.inl h))
          · rw [maxBatchSizeFor_congr cfg st1 st hreq m2] at hdf hfe
            exact Or.inr (Or.inr (Or.inr (Or.inl ⟨m2, rows, hdf, hfe⟩)))
          · rw [maxBatchSizeFor_congr cfg st1 st hreq m2] at hdf hfm
            rw [requestsForModel_congr st1 st hreq m2] at hmem
            refine Or.inr (Or.inr (Or.inr (Or.inr ⟨m2, rid, r, rows, hmem, hdf, hce, ?_⟩)))
            exact List.mem_append.mpr (Or.inr hfm)

theorem calculateBody_requests_eq (cfg : ServiceConfig) (ds : DataSource)
    (md : MetricsDirectory) (st : SchedulerState) :
    (calculateBody cfg ds md st).1.requests = st.requests := by
  unfold calculateBody
  dsimp only
  repeat' split
  all_goals first
    | rfl
    | exact processModels_requests_eq cfg ds md _ _ _

theorem calculateBody_skiplog (cfg : ServiceConfig) (ds : DataSource)
    (md : MetricsDirectory) (st : SchedulerState) :
    ∃ t, (calculateBody cfg ds md st).1.has_logged_skipped_request_message =
      st.has_logged_skipped_request_message ++ t := by
  unfold calculateBody
  dsimp only
  repeat' split
  all_goals first
    | exact ⟨[], (List.append_nil _).symm⟩
    | exact processModels_skiplog cfg ds md _ _ _

theorem calculateBody_skipcount (cfg : ServiceConfig) (ds : DataSource)
    (md : MetricsDirectory) (st : SchedulerState) (x : String) :
    countSkips x (calculateBody cfg ds md st).2.1 +
      skipBudget x (calculateBody cfg ds md st).1 ≤ skipBudget x st := by
  unfold calculateBody
  dsimp only
  split
  · simp [countSkips, skipBudget]
  · rename_i vm hvm
    have hw1 : countSkips x (st.publisher.gauge "" (uuid5dns "model_count") none
        (some (vm.length : Rat)) none (some "MODEL_COUNT_TOTAL")).2.1 = 0 :=
      onlyWarnReplaced_countSkips _ _ (gauge_onlyWarn _ _ _ _ _ _ _)
    split
    · simp [hw1, skipBudget]
    · rw [countSkips_append, hw1, Nat.zero_add]
      exact processModels_skipcount cfg ds md _ vm _ x

theorem calculateBody_events (cfg : ServiceConfig) (ds : DataSource)
    (md : MetricsDirectory) (st : SchedulerState)
    (res : SchedulerState × List Event × Option PyErr)
    (hres : calculateBody cfg ds md st = res) :
    ∀ e ∈ res.2.1,
      (∃ s, e = Event.warnReplaced s) ∨ (∃ s, e = Event.warnNoCalculator s) ∨
      (∃ s, e = Event.skipLog s) ∨
      (∃ m rows, ds.get_organic_dataframe m (maxBatchSizeFor cfg st m) = Except.ok rows ∧
        e = Event.fetch m (maxBatchSizeFor cfg st m) rows) ∨
      (∃ m rid r rows, (rid, r) ∈ requestsForModel st m ∧
        ds.get_organic_dataframe m (maxBatchSizeFor cfg st m) = Except.ok rows ∧
        e = Event.calc m rid r.batch_size (dfTail rows (Nat.min r.batch_size rows.length)) ∧
        Event.fetch m (maxBatchSizeFor cfg st m) rows ∈ res.2.1) := by
  unfold calculateBody at hres
  dsimp only at hres
  split at hres
  · subst hres
    intro e he
    cases he
  · rename_i vm hvm
    have hw1 : onlyWarnReplaced (st.publisher.gauge "" (uuid5dns "model_count") none
        (some (vm.length : Rat)) none (some "MODEL_COUNT_TOTAL")).2.1 :=
      gauge_onlyWarn _ _ _ _ _ _ _
    split at hres
    · subst hres
      intro e he
      exact Or.inl (hw1 e he)
    · rename_i herr
      have hreq : ({ st with publisher := (st.publisher.gauge "" (uuid5dns "model_count")
          none (some (vm.length : Rat)) none (some "MODEL_COUNT_TOTAL")).1 } :
          SchedulerState).requests = st.requests := rfl
      subst hres
      intro e he
      dsimp only at he ⊢
      rcases List.mem_append.mp he with h1 | h2
      · exact Or.inl (hw1 e h1)
      · rcases processModels_events cfg ds md _ vm _ _ rfl e h2 with
          h | h | h | ⟨m2, rows, hdf, hfe⟩ | ⟨m2, rid, r, rows, hmem, hdf, hce, hfm⟩
        · exact Or.inl h
        · exact Or.inr (Or.inl h)
        · exact Or.inr (Or.inr (Or.inl h))
        · rw [maxBatchSizeFor_congr _ _ st hreq m2] at hdf hfe
          exact Or.inr (Or.inr (Or.inr (Or.inl ⟨m2, rows, hdf, hfe⟩)))
        · rw [maxBatchSizeFor_congr _ _ st hreq m2] at hdf hfm
          rw [requestsForModel_congr _ st hreq m2] at hmem
          refine Or.inr (Or.inr (Or.inr (Or.inr ⟨m2, rid, r, rows, hmem, hdf, hce, ?_⟩)))
          exact List.mem_append.mpr (Or.inr hfm)

theorem calculate_manual_requests_eq (cfg : ServiceConfig) (ds : DataSource)
    (md : MetricsDirectory) (st : SchedulerState) (t : Bool) :
    (PrometheusScheduler.calculate_manual cfg ds md st t).1.requests = st.requests := by
  unfold PrometheusScheduler.calculate_manual
  split
  · rename_i st1 evs e hbody
    have h := calculateBody_requests_eq cfg ds md st
    rw [hbody] at h
    split <;> exact h
  · exact calculateBody_requests_eq cfg ds md st

theorem calculate_manual_skipcount (cfg : ServiceConfig) (ds : DataSource)
    (md : MetricsDirectory) (st : SchedulerState) (t : Bool) (x : String) :
    countSkips x (PrometheusScheduler.calculate_manual cfg ds md st t).2.1 +
      skipBudget x (PrometheusScheduler.calculate_manual cfg ds md st t).1 ≤
      skipBudget x st := by
  unfold PrometheusScheduler.calculate_manual
  split
  · rename_i st1 evs e hbody
    have h := calculateBody_skipcount cfg ds md st x
    rw [hbody] at h
    dsimp only at h
    split
    · exact h
    · dsimp only
      rw [countSkips_append]
      have hz : countSkips x [Event.errLog e] = 0 := rfl
      rw [hz]
      omega
  · exact calculateBody_skipcount cfg ds md st x

theorem calculate_manual_skiplog (cfg : ServiceConfig) (ds : DataSource)
    (md : MetricsDirectory) (st : SchedulerState) (t : Bool) :
    ∃ tl, (PrometheusScheduler.calculate_manual cfg ds md st t).1.has_logged_skipped_request_message =
      st.has_logged_skipped_request_message ++ tl := by
  unfold PrometheusScheduler.calculate_manual
  split
  · rename_i st1 evs e hbody
    have h := calculateBody_skiplog cfg ds md st
    rw [hbody] at h
    split <;> exact h
  · exact calculateBody_skiplog cfg ds md st

theorem calculate_manual_events (cfg : ServiceConfig) (ds : DataSource)
    (md : MetricsDirectory) (st : SchedulerState) (t : Bool)
    (res : SchedulerState × List Event × Option PyErr)
    (hres : PrometheusScheduler.calculate_manual cfg ds md st t = res) :
    ∀ e ∈ res.2.1,
      (∃ s, e = Event.warnReplaced s) ∨ (∃ s, e = Event.warnNoCalculator s) ∨
      (∃ s, e = Event.skipLog s) ∨ (∃ er, e = Event.errLog er) ∨
      (∃ m rows, ds.get_organic_dataframe m (maxBatchSizeFor cfg st m) = Except.ok rows ∧
        e = Event.fetch m (maxBatchSizeFor cfg st m) rows) ∨
      (∃ m rid r rows, (rid, r) ∈ requestsForModel st m ∧
        ds.get_organic_dataframe m (maxBatchSizeFor cfg st m) = Except.ok rows ∧
        e = Event.calc m rid r.batch_size (dfTail rows (Nat.min r.batch_size rows.length)) ∧
        Event.fetch m (maxBatchSizeFor cfg st m) rows ∈ res.2.1) := by
  unfold PrometheusScheduler.calculate_manual at hres
  split at hres
  · rename_i st1 evs e2 hbody
    split at hres
    · subst hres
      intro e he
      rcases calculateBody_events cfg ds md st _ hbody e he with
        h | h | h | ⟨m2, rows, hdf, hfe⟩ | ⟨m2, rid, r, rows, hmem, hdf, hce, hfm⟩
      · exact Or.inl h
      · exact Or.inr (Or.inl h)
      · exact Or.inr (Or.inr (Or.inl h))
      · exact Or.inr (Or.inr (Or.inr (Or.inr (Or.inl ⟨m2, rows, hdf, hfe⟩))))
      · exact Or.inr (Or.inr (Or.inr (Or.inr (Or.inr
          ⟨m2, rid, r, rows, hmem, hdf, hce, hfm⟩))))
    · subst hres
      intro e he
      dsimp only at he ⊢
      rcases List.mem_append.mp he with h1 | h2
      · rcases calculateBody_events cfg ds md st _ hbody e h1 with
          h | h | h | ⟨m2, rows, hdf, hfe⟩ | ⟨m2, rid, r, rows, hmem, hdf, hce, hfm⟩
        · exact Or.inl h
        · exact Or.inr (Or.inl h)
        · exact Or.inr (Or.inr (Or.inl h))
        · exact Or.inr (Or.inr (Or.inr (Or.inr (Or.inl ⟨m2, rows, hdf, hfe⟩))))
        · refine Or.inr (Or.inr (Or.inr (Or.inr (Or.inr
            ⟨m2, rid, r, rows, hmem, hdf, hce, ?_⟩))))
          exact List.mem_append.mpr (Or.inl hfm)
      · rcases List.mem_singleton.mp h2 with rfl
        exact Or.inr (Or.inr (Or.inr (Or.inl ⟨e2, rfl⟩)))
  · intro e he
    rcases calculateBody_events cfg ds md st res hres e he with
      h | h | h | ⟨m2, rows, hdf, hfe⟩ | ⟨m2, rid, r, rows, hmem, hdf, hce, hfm⟩
    · exact Or.inl h
    · exact Or.inr (Or.inl h)
    · exact Or.inr (Or.inr (Or.inl h))
    · exact Or.inr (Or.inr (Or.inr (Or.inr (Or.inl ⟨m2, rows, hdf, hfe⟩))))
    · exact Or.inr (Or.inr (Or.inr (Or.inr (Or.inr
        ⟨m2, rid, r, rows, hmem, hdf, hce, hfm⟩))))

theorem calculateBody_noErrLog (cfg : ServiceConfig) (ds : DataSource)
    (md : MetricsDirectory) (st : SchedulerState) (er : PyErr) :
    Event.errLog er ∉ (calculateBody cfg ds md st).2.1 := by
  intro hmem
  rcases calculateBody_events cfg ds md st _ rfl _ hmem with
    ⟨s, hs⟩ | ⟨s, hs⟩ | ⟨s, hs⟩ | ⟨m2, rows, _, hs⟩ | ⟨m2, rid, r, rows, _, _, hs, _⟩ <;>
    cases hs

theorem runPeriodicPasses_skipcount (cfg : ServiceConfig) (ds : DataSource)
    (md : MetricsDirectory) (k : Nat) (st : SchedulerState) (x : String) :
    countSkips x (runPeriodicPasses cfg ds md k st).2 +
      skipBudget x (runPeriodicPasses cfg ds md k st).1 ≤ skipBudget x st := by
  induction k generalizing st with
  | zero => simp [runPeriodicPasses, countSkips]
  | succ k ih =>
      simp only [runPeriodicPasses]
      rw [countSkips_append, Nat.add_assoc]
      exact le_trans (Nat.add_le_add_left (ih _) _)
        (calculate_manual_skipcount cfg ds md st false x)

theorem runPeriodicPasses_skiplog (cfg : ServiceConfig) (ds : DataSource)
    (md : MetricsDirectory) (k : Nat) (st : SchedulerState) :
    ∃ t, (runPeriodicPasses cfg ds md k st).1.has_logged_skipped_request_message =
      st.has_logged_skipped_request_message ++ t := by
  induction k generalizing st with
  | zero => exact ⟨[], (List.append_nil _).symm⟩
  | succ k ih =>
      simp only [runPeriodicPasses]
      obtain ⟨t1, ht1⟩ := calculate_manual_skiplog cfg ds md st false
      obtain ⟨t2, ht2⟩ := ih (PrometheusScheduler.calculate_manual cfg ds md st false).1
      exact ⟨t1 ++ t2, by rw [ht2, ht1, List.append_assoc]⟩

/-! ## Concrete fixtures used by the claim theorems -/

set_option maxRecDepth 40000

def emptyPublisher : PrometheusPublisher := ⟨⟨[]⟩, []⟩

def stEmpty : SchedulerState := ⟨[], [], emptyPublisher⟩

def cfgDefault : ServiceConfig := ⟨100, "30s"⟩

def mdEmpty : MetricsDirectory := ⟨fun _ => none⟩

def reqSPD : BaseMetricRequest :=
  { model_id := "m1", metric_name := "SPD", batch_size := 100,
    retrieve_default_tags := [("model", "m1")], retrieve_tags := [("outcome", "o")],
    reconcilables := [] }

/-! ## Claim C4 -/

/-- C4: a carrier constructed from a name-to-value mapping fails `get_value`
with the invalid-access error, a carrier constructed from a scalar fails
`get_named_values` with the invalid-access error; exactly one of the two
forms is populated in any carrier and `is_single` reports which; the right
accessor returns the stored content unchanged. -/
theorem c4_value_carrier_access (v : Rat) (nm : List (String × Rat))
    (x : ValueOrNamedValues) :
    (MetricValueCarrier.init (ValueOrNamedValues.named nm)).get_value =
      Except.error (PyErr.valueErr notSingularMsg) ∧
    (MetricValueCarrier.init (ValueOrNamedValues.scalar v)).get_named_values =
      Except.error (PyErr.valueErr singularMsg) ∧
    (MetricValueCarrier.init (ValueOrNamedValues.scalar v)).get_value =
      Except.ok (some v) ∧
    (MetricValueCarrier.init (ValueOrNamedValues.named nm)).get_named_values =
      Except.ok (some nm) ∧
    (MetricValueCarrier.init x).value.isSome = !(MetricValueCarrier.init x).named_values.isSome ∧
    (MetricValueCarrier.init x).is_single = (MetricValueCarrier.init x).value.isSome := by
  refine ⟨rfl, rfl, rfl, rfl, ?_, ?_⟩ <;>
    cases x <;>
    simp [MetricValueCarrier.init, MetricValueCarrier.is_single]

/-! ## Claim C5 -/

/-- C5 counterexample: the claim says an hours suffix yields the number
times 3600 seconds, but the parser has no hours branch: "1h" falls through
to the 30-second default, and 30 is not 3600. -/
theorem c5_hours_suffix_counterexample :
    parseScheduleInterval "1h" = Except.ok 30 ∧ (30 : Int) ≠ 3600 := by
  exact ⟨rfl, by decide⟩

/-- C5 (amended): a seconds suffix yields that number of seconds, a minutes
suffix yields that number times 60 seconds, and any other string — an hours
suffix included — yields the default of 30 seconds. -/
theorem c5_interval_parsing (s : String) (n : Int) :
    (strEndsWith s "s" = true → pyParseInt (s.dropRight 1) = Except.ok n →
      parseScheduleInterval s = Except.ok n) ∧
    (strEndsWith s "s" = false → strEndsWith s "m" = true →
      pyParseInt (s.dropRight 1) = Except.ok n →
      parseScheduleInterval s = Except.ok (n * 60)) ∧
    (strEndsWith s "s" = false → strEndsWith s "m" = false →
      parseScheduleInterval s = Except.ok 30) := by
  unfold parseScheduleInterval
  refine ⟨?_, ?_, ?_⟩
  · intro h1 h2
    simp [h1, h2]
  · intro h1 h2 h3
    simp [h1, h2, h3]
  · intro h1 h2
    simp [h1, h2]

theorem c5_interval_parsing_witness :
    parseScheduleInterval "10s" = Except.ok 10 ∧
    parseScheduleInterval "5m" = Except.ok 300 ∧
    parseScheduleInterval "30" = Except.ok 30 :=
  ⟨(c5_interval_parsing "10s" 10).1 (by decide) (by decide),
   (c5_interval_parsing "5m" 5).2.1 (by decide) (by decide) (by decide),
   (c5_interval_parsing "30" 0).2.2 (by decide) (by decide)⟩

/-! ## Claim C1 -/

def c1FirstCall : PrometheusPublisher × List Event × Option PyErr :=
  emptyPublisher.gauge "m1" "idA" (some reqSPD) (some 1) none none

def c1SecondCall : PrometheusPublisher × List Event × Option PyErr :=
  c1FirstCall.1.gauge "m1" "idA" (some reqSPD) (some 2) none none

/-- C1: publishing a request/value pair on a fresh registry builds the full
prefixed lower-cased metric name, the label set merging default tags,
request tags and the request id, creates the gauge and sets the labeled
series — but a second publication under the same full metric name, which
the claim says reuses the existing gauge and sets the value, instead raises
UnboundLocalError, because the source only assigns the local gauge variable
on the creation path (the value map is still updated before the failure). -/
theorem c1_gauge_reuse_unbound_local :
    c1FirstCall.1 = ⟨⟨[Collector.gauge ⟨"trustyai_spd", ["model", "outcome", "request"],
        [(["m1", "o", "idA"], 1)]⟩]⟩, [("idA", 1)]⟩ ∧
    c1FirstCall.2 = ([], none) ∧
    c1SecondCall.2.2 = some PyErr.unboundLocalErr ∧
    c1SecondCall.1.values = [("idA", 2)] ∧
    c1SecondCall.1.registry = c1FirstCall.1.registry := by
  refine ⟨?_, ?_, ?_, ?_, ?_⟩ <;> rfl

/-! ## Claim C2 -/

def c2Gauge : PGauge := ⟨"trustyai_spd", ["request"], [(["A"], 1), (["B"], 2)]⟩

def c2Publisher : PrometheusPublisher := ⟨⟨[Collector.gauge c2Gauge]⟩, [("A", 1), ("B", 2)]⟩

def c2SubGauge : PGauge :=
  ⟨"trustyai_spd", ["request", "subcategory"], [(["A", "x"], 1), (["A", "y"], 2)]⟩

def c2SubPublisher : PrometheusPublisher := ⟨⟨[Collector.gauge c2SubGauge]⟩, [("A", 1)]⟩

/-- C2: the claim says remove_gauge removes exactly the label-combinations
whose request label equals the id and that differing series remain
registered.  The code instead unregisters the whole collector: removing id
"A" also deletes the series labeled request="B" (the registry ends up
empty), and when two label-combinations match the same id the collector is
collected twice and the second unregister raises KeyError.  Only the
no-matching-gauges case behaves as claimed (idempotent no-op). -/
theorem c2_remove_gauge_whole_collector :
    c2Publisher.remove_gauge "SPD" "A" = (⟨⟨[]⟩, [("B", 2)]⟩, none) ∧
    (c2SubPublisher.remove_gauge "SPD" "A").2 = some (PyErr.keyErr "trustyai_spd") ∧
    emptyPublisher.remove_gauge "SPD" "A" = (emptyPublisher, none) := by
  refine ⟨?_, ?_, ?_⟩ <;> rfl

/-! ## Claim C8 -/

def c8Call1 : PrometheusPublisher × List Event × Option PyErr :=
  emptyPublisher.gauge "m1" "idA" (some reqSPD) none (some [("a", 1), ("b", 2)]) none

def c8Call2 : PrometheusPublisher × List Event × Option PyErr :=
  c8Call1.1.gauge "m1" "idA" (some reqSPD) none (some [("a", 3), ("b", 4)]) none

/-- C8: the sub-identifier for pair index idx is uuid5(NAMESPACE_DNS,
str(id) + str(idx)) — deterministic, so the repeated call writes the same
value-map keys (the map keeps the same keys, updated in place, across the
two calls) and each sub-series carries the added subcategory label.  But
the claimed gauge reuse across calls fails: already the first call crashes
with UnboundLocalError at its second sub-pair (the gauge exists by then),
and the repeated call crashes at its first sub-pair. -/
theorem c8_subid_deterministic_but_no_reuse :
    c8Call1.1.values =
      [(uuid5dns ("idA" ++ Nat.repr 0), 1), (uuid5dns ("idA" ++ Nat.repr 1), 2)] ∧
    c8Call1.1.registry = ⟨[Collector.gauge ⟨"trustyai_spd",
      ["model", "outcome", "request", "subcategory"], [(["m1", "o", "idA", "a"], 1)]⟩]⟩ ∧
    c8Call1.2.2 = some PyErr.unboundLocalErr ∧
    c8Call2.1.values =
      [(uuid5dns ("idA" ++ Nat.repr 0), 3), (uuid5dns ("idA" ++ Nat.repr 1), 2)] ∧
    c8Call2.2.2 = some PyErr.unboundLocalErr := by
  refine ⟨?_, ?_, ?_, ?_, ?_⟩ <;> rfl

/-! ## Claim C6 -/

theorem alistSet_of_absent {α β : Type} [DecidableEq α]
    (l : List (α × β)) (k : α) (v : β) (h : alistGet l k = none) :
    alistSet l k v = l ++ [(k, v)] := by
  induction l with
  | nil => rfl
  | cons hd tl ih =>
      obtain ⟨ka, va⟩ := hd
      by_cases hk : ka = k
      · subst hk
        simp [alistGet] at h
      · simp only [alistGet, hk, if_neg] at h
        simp [alistSet, hk, ih h]

theorem flat_append_empty_bucket (l : List (String × List (String × BaseMetricRequest)))
    (mn : String) :
    (l ++ [(mn, [])]).foldl
        (fun (acc : List (String × BaseMetricRequest))
          (b : String × List (String × BaseMetricRequest)) => alistUpdateAll acc b.2) [] =
      l.foldl
        (fun (acc : List (String × BaseMetricRequest))
          (b : String × List (String × BaseMetricRequest)) => alistUpdateAll acc b.2) [] := by
  rw [List.foldl_append]
  rfl

/-- C6: when reconciliation of a request raises, register propagates the
error to its caller and the request never becomes visible: get_requests
(for every metric name), get_all_requests_flat, has_requests and
get_model_ids all observe the same table as before the call.  (The failed
call may create an empty bucket, which none of the four observers can see.) -/
theorem c6_failed_reconcile_not_registered (ds : DataSource) (st : SchedulerState)
    (metric_name id : String) (request : BaseMetricRequest) (e : PyErr)
    (h : RequestReconciler.reconcile request ds = Except.error e) :
    (PrometheusScheduler.register ds st metric_name id request).2 = some e ∧
    (∀ n, PrometheusScheduler.get_requests
        (PrometheusScheduler.register ds st metric_name id request).1 n =
      PrometheusScheduler.get_requests st n) ∧
    PrometheusScheduler.get_all_requests_flat
        (PrometheusScheduler.register ds st metric_name id request).1 =
      PrometheusScheduler.get_all_requests_flat st ∧
    PrometheusScheduler.has_requests
        (PrometheusScheduler.register ds st metric_name id request).1 =
      PrometheusScheduler.has_requests st ∧
    PrometheusScheduler.get_model_ids
        (PrometheusScheduler.register ds st metric_name id request).1 =
      PrometheusScheduler.get_model_ids st := by
  unfold PrometheusScheduler.register
  rw [h]
  by_cases hb : (alistGet st.requests metric_name).isNone
  · have hnone : alistGet st.requests metric_name = none := by
      cases hget : alistGet st.requests metric_name
      · rfl
      · rw [hget] at hb
        simp [Option.isNone] at hb
    rw [if_pos hb]
    rw [alistSet_of_absent st.requests metric_name [] hnone]
    have hflat : PrometheusScheduler.get_all_requests_flat
        { st with requests := st.requests ++ [(metric_name, [])] } =
        PrometheusScheduler.get_all_requests_flat st := by
      unfold PrometheusScheduler.get_all_requests_flat
      exact flat_append_empty_bucket st.requests metric_name
    refine ⟨rfl, ?_, hflat, ?_, ?_⟩
    · intro n
      unfold PrometheusScheduler.get_requests
      by_cases hn : n = metric_name
      · subst hn
        rw [hnone]
        have : alistGet (st.requests ++ [(n, [])]) n = some [] := by
          rw [← alistSet_of_absent st.requests n ([] : List (String × BaseMetricRequest)) hnone]
          exact alistGet_set_eq st.requests n []
        rw [this]
        rfl
      · have : alistGet (st.requests ++ [(metric_name, [])]) n =
            alistGet st.requests n := by
          rw [← alistSet_of_absent st.requests metric_name
            ([] : List (String × BaseMetricRequest)) hnone]
          exact alistGet_set_ne st.requests metric_name n [] hn
        rw [this]
    · unfold PrometheusScheduler.has_requests
      simp
    · unfold PrometheusScheduler.get_model_ids
      rw [hflat]
  · rw [if_neg hb]
    exact ⟨rfl, fun n => rfl, rfl, rfl, rfl⟩

def dsFailMeta : DataSource :=
  { get_verified_models := Except.ok [],
    get_num_observations := fun _ => Except.ok 0,
    has_recorded_inferences := fun _ => Except.ok false,
    get_organic_dataframe := fun _ _ => Except.ok [],
    get_metadata := fun _ => Except.error (PyErr.exn "metadata unavailable") }

theorem c6_failed_reconcile_witness :
    (PrometheusScheduler.register dsFailMeta stEmpty "SPD" "idA" reqSPD).2 =
      some (PyErr.exn "metadata unavailable") ∧
    PrometheusScheduler.has_requests
        (PrometheusScheduler.register dsFailMeta stEmpty "SPD" "idA" reqSPD).1 =
      PrometheusScheduler.has_requests stEmpty :=
  have h := c6_failed_reconcile_not_registered dsFailMeta stEmpty "SPD" "idA" reqSPD
    (PyErr.exn "metadata unavailable") rfl
  ⟨h.1, h.2.2.2.1⟩

/-! ## Claim C10 -/

/-- C10: when the bucket for the metric already maps the id to a request r1
and reconciliation of r2 succeeds, register silently replaces r1 with r2:
no error is returned, the publisher (hence every gauge) is untouched, all
other entries of every bucket are unchanged, and get_requests afterwards
maps the id to r2. -/
theorem c10_register_overwrites (ds : DataSource) (st : SchedulerState)
    (metric_name id : String) (bucket : List (String × BaseMetricRequest))
    (r1 r2 : BaseMetricRequest)
    (hb : alistGet st.requests metric_name = some bucket)
    (_hr1 : alistGet bucket id = some r1)
    (hrec : RequestReconciler.reconcile r2 ds = Except.ok ()) :
    (PrometheusScheduler.register ds st metric_name id r2).2 = none ∧
    (PrometheusScheduler.register ds st metric_name id r2).1.publisher = st.publisher ∧
    (PrometheusScheduler.register ds st metric_name id r2).1.has_logged_skipped_request_message =
      st.has_logged_skipped_request_message ∧
    alistGet (PrometheusScheduler.get_requests
        (PrometheusScheduler.register ds st metric_name id r2).1 metric_name) id =
      some r2 ∧
    (∀ id2, id2 ≠ id → alistGet (PrometheusScheduler.get_requests
        (PrometheusScheduler.register ds st metric_name id r2).1 metric_name) id2 =
      alistGet bucket id2) ∧
    (∀ n, n ≠ metric_name → PrometheusScheduler.get_requests
        (PrometheusScheduler.register ds st metric_name id r2).1 n =
      PrometheusScheduler.get_requests st n) := by
  unfold PrometheusScheduler.register
  rw [hrec]
  have hcond : ¬ ((alistGet st.requests metric_name).isNone = true) := by
    rw [hb]
    simp
  rw [if_neg hcond]
  dsimp only
  rw [hb]
  rw [Option.getD_some]
  have hget : PrometheusScheduler.get_requests
      { st with requests := alistSet st.requests metric_name (alistSet bucket id r2) }
      metric_name = alistSet bucket id r2 := by
    unfold PrometheusScheduler.get_requests
    rw [alistGet_set_eq]
    rfl
  refine ⟨rfl, rfl, rfl, ?_, ?_, ?_⟩
  · rw [hget]
    exact alistGet_set_eq bucket id r2
  · intro id2 hid2
    rw [hget]
    exact alistGet_set_ne bucket id id2 r2 hid2
  · intro n hn
    unfold PrometheusScheduler.get_requests
    rw [alistGet_set_ne st.requests metric_name n _ hn]

def dsOkMeta : DataSource :=
  { get_verified_models := Except.ok [],
    get_num_observations := fun _ => Except.ok 0,
    has_recorded_inferences := fun _ => Except.ok false,
    get_organic_dataframe := fun _ _ => Except.ok [],
    get_metadata := fun m => Except.ok ⟨m, 0, false, [], [], [], "input", "output"⟩ }

def reqSPDnew : BaseMetricRequest :=
  { model_id := "m1", metric_name := "SPD", batch_size := 25,
    retrieve_default_tags := [("model", "m1")], retrieve_tags := [("outcome", "o2")],
    reconcilables := [] }

def stC10 : SchedulerState := ⟨[("SPD", [("idA", reqSPD)])], [], emptyPublisher⟩

theorem c10_register_overwrites_witness :
    alistGet (PrometheusScheduler.get_requests
        (PrometheusScheduler.register dsOkMeta stC10 "SPD" "idA" reqSPDnew).1 "SPD")
      "idA" = some reqSPDnew ∧
    (PrometheusScheduler.register dsOkMeta stC10 "SPD" "idA" reqSPDnew).2 = none :=
  have h := c10_register_overwrites dsOkMeta stC10 "SPD" "idA" [("idA", reqSPD)]
    reqSPD reqSPDnew rfl rfl rfl
  ⟨h.2.2.2.1, h.1⟩

/-! ## Claim C9 -/

/-- C9: across any number of consecutive periodic evaluation passes, the
skip message for a model is logged at most once — at most its remaining
budget, which is 1 while the model is not in the Skip-Log Memory and 0 once
it is — and the Skip-Log Memory only ever grows (it is never cleared during
the process lifetime). -/
theorem c9_skip_logged_at_most_once (cfg : ServiceConfig) (ds : DataSource)
    (md : MetricsDirectory) (k : Nat) (st : SchedulerState) (m : String) :
    countSkips m (runPeriodicPasses cfg ds md k st).2 ≤ skipBudget m st ∧
    (∃ t, (runPeriodicPasses cfg ds md k st).1.has_logged_skipped_request_message =
      st.has_logged_skipped_request_message ++ t) :=
  ⟨le_trans (Nat.le_add_right _ _) (runPeriodicPasses_skipcount cfg ds md k st m),
   runPeriodicPasses_skiplog cfg ds md k st⟩

/-! ## Claim C3 -/

/-- C3 (amended): during an evaluation pass, every organic-dataframe fetch
performed for a model uses exactly the maximum batch_size over the
flattened request view (get_all_requests_flat, where a request id
registered under several metric names counts only through its last bucket)
restricted to that model, with the configured default when none matches;
and every calculator invocation receives exactly the trailing
min(request.batch_size, fetched_row_count) rows of the batch fetched for
its model. -/
theorem c3_fetch_and_subbatch_sizes (cfg : ServiceConfig) (ds : DataSource)
    (md : MetricsDirectory) (st : SchedulerState) (t : Bool) :
    (∀ m bs rows, Event.fetch m bs rows ∈
        (PrometheusScheduler.calculate_manual cfg ds md st t).2.1 →
      bs = maxBatchSizeFor cfg st m ∧ ds.get_organic_dataframe m bs = Except.ok rows) ∧
    (∀ m rid rbs batch, Event.calc m rid rbs batch ∈
        (PrometheusScheduler.calculate_manual cfg ds md st t).2.1 →
      ∃ r rows, (rid, r) ∈ requestsForModel st m ∧ r.batch_size = rbs ∧
        ds.get_organic_dataframe m (maxBatchSizeFor cfg st m) = Except.ok rows ∧
        batch = dfTail rows (Nat.min rbs rows.length) ∧
        Event.fetch m (maxBatchSizeFor cfg st m) rows ∈
          (PrometheusScheduler.calculate_manual cfg ds md st t).2.1) := by
  constructor
  · intro m bs rows hmem
    rcases calculate_manual_events cfg ds md st t _ rfl _ hmem with
      ⟨s, hs⟩ | ⟨s, hs⟩ | ⟨s, hs⟩ | ⟨er, hs⟩ | ⟨m2, rows2, hdf, hs⟩ |
      ⟨m2, rid2, r, rows2, hmem2, hdf, hs, hfm⟩
    · exact Event.noConfusion hs
    · exact Event.noConfusion hs
    · exact Event.noConfusion hs
    · exact Event.noConfusion hs
    · rw [Event.fetch.injEq] at hs
      obtain ⟨rfl, rfl, rfl⟩ := hs
      exact ⟨rfl, hdf⟩
    · exact Event.noConfusion hs
  · intro m rid rbs batch hmem
    rcases calculate_manual_events cfg ds md st t _ rfl _ hmem with
      ⟨s, hs⟩ | ⟨s, hs⟩ | ⟨s, hs⟩ | ⟨er, hs⟩ | ⟨m2, rows2, hdf, hs⟩ |
      ⟨m2, rid2, r, rows2, hmem2, hdf, hs, hfm⟩
    · exact Event.noConfusion hs
    · exact Event.noConfusion hs
    · exact Event.noConfusion hs
    · exact Event.noConfusion hs
    · exact Event.noConfusion hs
    · rw [Event.calc.injEq] at hs
      obtain ⟨rfl, rfl, hrbs, hbatch⟩ := hs
      exact ⟨r, rows2, hmem2, hrbs.symm, hdf, by rw [hbatch, hrbs], hfm⟩

/-- Spec-side reading of C3 (for the counterexample): the batch sizes of
all currently-registered requests for a model, collected across every
metric bucket rather than through the flattened view. -/
def allRegisteredBatchSizes (st : SchedulerState) (m : String) : List Nat :=
  st.requests.foldl (fun acc b =>
    acc ++ (b.2.filter (fun p => p.2.model_id == m)).map (fun p => p.2.batch_size)) []

def reqC3spd : BaseMetricRequest :=
  { model_id := "m1", metric_name := "SPD", batch_size := 100,
    retrieve_default_tags := [], retrieve_tags := [], reconcilables := [] }

def reqC3dir : BaseMetricRequest :=
  { model_id := "m1", metric_name := "DIR", batch_size := 10,
    retrieve_default_tags := [], retrieve_tags := [], reconcilables := [] }

/-- The same request id registered under two metric names for one model. -/
def stC3 : SchedulerState :=
  ⟨[("SPD", [("rX", reqC3spd)]), ("DIR", [("rX", reqC3dir)])], [], emptyPublisher⟩

def dsC3 : DataSource :=
  { get_verified_models := Except.ok ["m1"],
    get_num_observations := fun _ => Except.ok 5,
    has_recorded_inferences := fun _ => Except.ok true,
    get_organic_dataframe := fun _ n => Except.ok (List.range n),
    get_metadata := fun m => Except.ok ⟨m, 5, true, [], [], [], "input", "output"⟩ }

/-- C3 counterexample: with the same request id registered under two metric
names for the same model (batch sizes 100 then 10), the flattened view
keeps only the last entry, so the single fetch of the pass uses batch size
10 — but the maximum batch_size over all currently-registered requests for
that model, which the claim prescribes, is 100. -/
theorem c3_shadowed_id_counterexample :
    (PrometheusScheduler.calculate_manual cfgDefault dsC3 mdEmpty stC3 true).2.1 =
      [Event.fetch "m1" 10 [0, 1, 2, 3, 4, 5, 6, 7, 8, 9],
       Event.warnNoCalculator "DIR"] ∧
    listMaxD (allRegisteredBatchSizes stC3 "m1") cfgDefault.batch_size = 100 ∧
    (10 : Nat) ≠ 100 := by
  refine ⟨?_, by decide, by decide⟩
  rfl

theorem c3_fetch_size_witness :
    10 = maxBatchSizeFor cfgDefault stC3 "m1" ∧
    dsC3.get_organic_dataframe "m1" 10 = Except.ok [0, 1, 2, 3, 4, 5, 6, 7, 8, 9] :=
  (c3_fetch_and_subbatch_sizes cfgDefault dsC3 mdEmpty stC3 true).1 "m1" 10
    [0, 1, 2, 3, 4, 5, 6, 7, 8, 9] (by decide)

/-! ## Claim C7 -/

/-- C7 (amended): when the evaluation body throws, a manual call with
throw_errors=True re-raises the error to the caller without logging it (the
trace carries no error-log event), while a pass with throw_errors=False —
the periodic mode — swallows the error, appends exactly one error-log event
to the trace, surfaces no error, and the periodic loop proceeds to the next
tick on the resulting state regardless. -/
theorem c7_error_propagation (cfg : ServiceConfig) (ds : DataSource)
    (md : MetricsDirectory) (st : SchedulerState) :
    ((PrometheusScheduler.calculate_manual cfg ds md st false).2.2 = none) ∧
    (∀ e, (calculateBody cfg ds md st).2.2 = some e →
      PrometheusScheduler.calculate_manual cfg ds md st true =
        ((calculateBody cfg ds md st).1, (calculateBody cfg ds md st).2.1, some e) ∧
      (∀ er, Event.errLog er ∉
        (PrometheusScheduler.calculate_manual cfg ds md st true).2.1) ∧
      PrometheusScheduler.calculate_manual cfg ds md st false =
        ((calculateBody cfg ds md st).1,
          (calculateBody cfg ds md st).2.1 ++ [Event.errLog e], none)) ∧
    (∀ k, runPeriodicPasses cfg ds md (k + 1) st =
      ((runPeriodicPasses cfg ds md k
          (PrometheusScheduler.calculate_manual cfg ds md st false).1).1,
        (PrometheusScheduler.calculate_manual cfg ds md st false).2.1 ++
          (runPeriodicPasses cfg ds md k
            (PrometheusScheduler.calculate_manual cfg ds md st false).1).2)) := by
  refine ⟨?_, ?_, ?_⟩
  · unfold PrometheusScheduler.calculate_manual
    split
    · rfl
    · rename_i hne
      cases hb : (calculateBody cfg ds md st).2.2 with
      | none => rfl
      | some e2 => exact (hne (calculateBody cfg ds md st).1
          (calculateBody cfg ds md st).2.1 e2 (by rw [← hb])).elim
  · intro e hbody
    have htrue : PrometheusScheduler.calculate_manual cfg ds md st true =
        ((calculateBody cfg ds md st).1, (calculateBody cfg ds md st).2.1, some e) := by
      unfold PrometheusScheduler.calculate_manual
      split
      · rename_i st1 evs e2 hb2
        rw [hb2]
        rw [hb2] at hbody
        dsimp only at hbody ⊢
        rw [Option.some_inj] at hbody
        rw [hbody]
        rfl
      · rename_i hne
        exact (hne (calculateBody cfg ds md st).1
          (calculateBody cfg ds md st).2.1 e (by rw [← hbody])).elim
    refine ⟨htrue, ?_, ?_⟩
    · intro er hmem
      rw [htrue] at hmem
      exact calculateBody_noErrLog cfg ds md st er hmem
    · unfold PrometheusScheduler.calculate_manual
      split
      · rename_i st1 evs e2 hb2
        rw [hb2] at hbody
        dsimp only at hbody
        rw [Option.some_inj] at hbody
        rw [hb2, hbody]
        rfl
      · rename_i hne
        exact (hne (calculateBody cfg ds md st).1
          (calculateBody cfg ds md st).2.1 e (by rw [← hbody])).elim
  · intro k
    rfl

def dsBoom : DataSource :=
  { get_verified_models := Except.error (PyErr.exn "boom"),
    get_num_observations := fun _ => Except.ok 0,
    has_recorded_inferences := fun _ => Except.ok false,
    get_organic_dataframe := fun _ _ => Except.ok [],
    get_metadata := fun _ => Except.error (PyErr.exn "boom") }

/-- C7 counterexample: the claim says the strict-mode call re-raises the
error after logging it, but the trace of the failing strict-mode call is
empty — the error escapes with no log line at all (logging only happens in
the swallow branch). -/
theorem c7_no_log_before_reraise_counterexample :
    (PrometheusScheduler.calculate_manual cfgDefault dsBoom mdEmpty stEmpty true).2 =
      ([], some (PyErr.exn "boom")) := by
  rfl

theorem c7_error_propagation_witness :
    PrometheusScheduler.calculate_manual cfgDefault dsBoom mdEmpty stEmpty false =
      (stEmpty, [Event.errLog (PyErr.exn "boom")], none) ∧
    (PrometheusScheduler.calculate_manual cfgDefault dsBoom mdEmpty stEmpty false).2.2 =
      none :=
  ⟨((c7_error_propagation cfgDefault dsBoom mdEmpty stEmpty).2.1
      (PyErr.exn "boom") rfl).2.2,
   (c7_error_propagation cfgDefault dsBoom mdEmpty stEmpty).1⟩
